import Mathlib

/-!
Shallow embedding of the advancedReport server (src/app.js, src/services/syncService.js,
the license service) together with theorems settling the frozen claims about it.
-/

namespace AdvReport

/-- A JavaScript runtime value as it occurs in a parsed sync payload. -/
inductive JsValue where
  | vStr : String → JsValue
  | vNum : Int → JsValue
  | vNull : JsValue
deriving DecidableEq, Repr

/-- JS truthiness of a payload value (empty string, 0 and null are falsy). -/
def JsValue.truthy : JsValue → Bool
  | .vStr s => s ≠ ""
  | .vNum n => n ≠ 0
  | .vNull => false

/-- A parsed payload: a JS object, i.e. ordered key/value pairs. -/
abbrev Payload := List (String × JsValue)

/-- JS property access `obj[k]`: `none` models `undefined`. -/
def getProp (p : Payload) (k : String) : Option JsValue :=
  (p.find? (fun kv => kv.1 = k)).map (fun kv => kv.2)

/-- JS `k in obj`. -/
def hasKey (p : Payload) (k : String) : Bool :=
  p.any (fun kv => kv.1 = k)

/-- Truthiness of a possibly-undefined JS value. -/
def truthyOpt : Option JsValue → Bool
  | some v => v.truthy
  | none => false

/-- JS `a || b` on possibly-undefined values: `b` whenever `a` is falsy. -/
def jsOr (a b : Option JsValue) : Option JsValue :=
  match a with
  | some v => if v.truthy then some v else b
  | none => b

/-- WHERE fields and values computed by the UPDATE case of
`executeAdvancedSyncOperation` (src/app.js 200-340), one branch per table
and business type exactly as in the source. -/
def updateWhere (tableName businessType : String) (d : Payload) :
    Except String (List String × List (Option JsValue)) :=
  if tableName = "SalesDetail" then
    if businessType = "hospitality" then
      if ¬ hasKey d "OrderNo" ∧ ¬ hasKey d "old_OrderNo" then
        .error "No OrderNo or old_OrderNo found for UPDATE operation on SalesDetail (Hospitality)"
      else if ¬ hasKey d "ItemCode" ∧ ¬ hasKey d "old_ItemCode" then
        .error "No ItemCode or old_ItemCode found for UPDATE operation on SalesDetail (Hospitality)"
      else
        .ok (["OrderNo", "ItemCode"],
          [jsOr (getProp d "old_OrderNo") (getProp d "OrderNo"),
           jsOr (getProp d "old_ItemCode") (getProp d "ItemCode")])
    else if businessType = "retail" then
      if ¬ hasKey d "InvoiceNo" ∧ ¬ hasKey d "old_InvoiceNo" then
        .error "No InvoiceNo or old_InvoiceNo found for UPDATE operation on SalesDetail (Retail)"
      else if ¬ hasKey d "StockId" ∧ ¬ hasKey d "old_StockId" then
        .error "No StockId or old_StockId found for UPDATE operation on SalesDetail (Retail)"
      else
        .ok (["InvoiceNo", "StockId"],
          [jsOr (getProp d "old_InvoiceNo") (getProp d "InvoiceNo"),
           jsOr (getProp d "old_StockId") (getProp d "StockId")])
    else .ok ([], [])
  else if tableName = "Sales" then
    if businessType = "hospitality" then
      if ¬ hasKey d "OrderNo" ∧ ¬ hasKey d "old_OrderNo" then
        .error "No OrderNo or old_OrderNo found for UPDATE operation on Sales (Hospitality)"
      else .ok (["OrderNo"], [jsOr (getProp d "old_OrderNo") (getProp d "OrderNo")])
    else if businessType = "retail" then
      if ¬ hasKey d "InvoiceNo" ∧ ¬ hasKey d "old_InvoiceNo" then
        .error "No InvoiceNo or old_InvoiceNo found for UPDATE operation on Sales (Retail)"
      else .ok (["InvoiceNo"], [jsOr (getProp d "old_InvoiceNo") (getProp d "InvoiceNo")])
    else
      if hasKey d "InvoiceNo" ∨ hasKey d "old_InvoiceNo" then
        .ok (["InvoiceNo"], [jsOr (getProp d "old_InvoiceNo") (getProp d "InvoiceNo")])
      else if hasKey d "OrderNo" ∨ hasKey d "old_OrderNo" then
        .ok (["OrderNo"], [jsOr (getProp d "old_OrderNo") (getProp d "OrderNo")])
      else .error "No InvoiceNo or OrderNo found for UPDATE operation on Sales"
  else if tableName = "StockItems" then
    if businessType = "retail" then
      if ¬ hasKey d "StockId" ∧ ¬ hasKey d "old_StockId" then
        .error "No StockId or old_StockId found for UPDATE operation on StockItems (Retail)"
      else .ok (["StockId"], [jsOr (getProp d "old_StockId") (getProp d "StockId")])
    else .ok ([], [])
  else if tableName = "MenuItem" then
    if businessType = "hospitality" then
      if ¬ hasKey d "ItemCode" ∧ ¬ hasKey d "old_ItemCode" then
        .error "No ItemCode or old_ItemCode found for UPDATE operation on MenuItem (Hospitality)"
      else .ok (["ItemCode"], [jsOr (getProp d "old_ItemCode") (getProp d "ItemCode")])
    else .ok ([], [])
  else if tableName = "SubMenuLinkDetail" then
    if businessType = "hospitality" then
      if ¬ hasKey d "ItemCode" ∧ ¬ hasKey d "old_ItemCode" then
        .error "No ItemCode or old_ItemCode found for UPDATE operation on SubMenuLinkDetail (Hospitality)"
      else .ok (["ItemCode"], [jsOr (getProp d "old_ItemCode") (getProp d "ItemCode")])
    else .ok ([], [])
  else if tableName = "PaymentReceived" then
    if businessType = "hospitality" then
      if ¬ hasKey d "OrderNo" ∧ ¬ hasKey d "old_OrderNo" then
        .error "No OrderNo or old_OrderNo found for UPDATE operation on PaymentReceived (Hospitality)"
      else if ¬ hasKey d "Id" ∧ ¬ hasKey d "old_Id" then
        .error "No Id or old_Id found for UPDATE operation on PaymentReceived (Hospitality)"
      else
        .ok (["OrderNo", "Id"],
          [jsOr (getProp d "old_OrderNo") (getProp d "OrderNo"),
           jsOr (getProp d "old_Id") (getProp d "Id")])
    else if businessType = "retail" then
      if ¬ hasKey d "InvoiceNo" ∧ ¬ hasKey d "old_InvoiceNo" then
        .error "No InvoiceNo or old_InvoiceNo found for UPDATE operation on PaymentReceived (Retail)"
      else if ¬ hasKey d "Id" ∧ ¬ hasKey d "old_Id" then
        .error "No Id or old_Id found for UPDATE operation on PaymentReceived (Retail)"
      else
        .ok (["InvoiceNo", "Id"],
          [jsOr (getProp d "old_InvoiceNo") (getProp d "InvoiceNo"),
           jsOr (getProp d "old_Id") (getProp d "Id")])
    else .ok ([], [])
  else if tableName = "Payment" then
    if ¬ hasKey d "Payment" ∧ ¬ hasKey d "old_Payment" then
      .error "No Payment or old_Payment found for UPDATE operation on Payment"
    else .ok (["Payment"], [jsOr (getProp d "old_Payment") (getProp d "Payment")])
  else
    if truthyOpt (jsOr (getProp d "id") (getProp d "old_id")) then
      .ok (["id"], [jsOr (getProp d "old_id") (getProp d "id")])
    else .error ("No primary key found for UPDATE operation on " ++ tableName)

/-- JS `key.startsWith("old_")`, computed on the character list. -/
def startsWithOld (k : String) : Bool := "old_".data.isPrefixOf k.data

/-- The parameterised UPDATE statement produced by the dispatcher. -/
structure UpdateStmt where
  table : String
  setCols : List String
  setVals : List JsValue
  whereFields : List String
  whereVals : List (Option JsValue)
deriving DecidableEq, Repr

/-- The UPDATE case of `executeAdvancedSyncOperation` (src/app.js 200-368):
WHERE resolution, then the SET list from the non-`old_` payload keys, then the
emptiness checks, in source order. -/
def buildUpdate (tableName businessType : String) (d : Payload) :
    Except String UpdateStmt :=
  match updateWhere tableName businessType d with
  | .error e => .error e
  | .ok (whereFields, whereVals) =>
    let setPairs := d.filter (fun kv => ¬ startsWithOld kv.1)
    if setPairs.isEmpty then
      .error "No fields to update"
    else if whereFields.isEmpty then
      .error ("No WHERE condition defined for UPDATE operation on " ++ tableName ++
        " with businessType=" ++ businessType)
    else
      .ok { table := tableName, setCols := setPairs.map (fun kv => kv.1),
            setVals := setPairs.map (fun kv => kv.2),
            whereFields := whereFields, whereVals := whereVals }

/-- WHERE fields and values computed by the DELETE case of
`executeAdvancedSyncOperation` (src/app.js 369-465); values come directly from
the payload, guarded by `in` checks, exactly as in the source (note: no
SubMenuLinkDetail case, and MenuItem/StockItems ignore the business type). -/
def deleteWhere (tableName businessType : String) (d : Payload) :
    Except String (List String × List (Option JsValue)) :=
  if tableName = "SalesDetail" then
    if businessType = "hospitality" then
      if ¬ hasKey d "OrderNo" then
        .error "No OrderNo found for DELETE operation on SalesDetail (Hospitality)"
      else if ¬ hasKey d "ItemCode" then
        .error "No ItemCode found for DELETE operation on SalesDetail (Hospitality)"
      else .ok (["OrderNo", "ItemCode"], [getProp d "OrderNo", getProp d "ItemCode"])
    else if businessType = "retail" then
      if ¬ hasKey d "InvoiceNo" then
        .error "No InvoiceNo found for DELETE operation on SalesDetail (Retail)"
      else if ¬ hasKey d "StockId" then
        .error "No StockId found for DELETE operation on SalesDetail (Retail)"
      else .ok (["InvoiceNo", "StockId"], [getProp d "InvoiceNo", getProp d "StockId"])
    else .ok ([], [])
  else if tableName = "Sales" then
    if businessType = "hospitality" then
      if ¬ hasKey d "OrderNo" then
        .error "No OrderNo found for DELETE operation on Sales (Hospitality)"
      else .ok (["OrderNo"], [getProp d "OrderNo"])
    else if businessType = "retail" then
      if ¬ hasKey d "InvoiceNo" then
        .error "No InvoiceNo found for DELETE operation on Sales (Retail)"
      else .ok (["InvoiceNo"], [getProp d "InvoiceNo"])
    else .ok ([], [])
  else if tableName = "MenuItem" then
    if ¬ hasKey d "ItemCode" then
      .error "No ItemCode found for DELETE operation on MenuItem"
    else .ok (["ItemCode"], [getProp d "ItemCode"])
  else if tableName = "StockItems" then
    if ¬ hasKey d "StockId" then
      .error "No StockId found for DELETE operation on StockItems"
    else .ok (["StockId"], [getProp d "StockId"])
  else if tableName = "PaymentReceived" then
    if businessType = "hospitality" then
      if ¬ hasKey d "OrderNo" then
        .error "No OrderNo found for DELETE operation on PaymentReceived (Hospitality)"
      else if ¬ hasKey d "Id" then
        .error "No Id found for DELETE operation on PaymentReceived (Hospitality)"
      else .ok (["OrderNo", "Id"], [getProp d "OrderNo", getProp d "Id"])
    else if businessType = "retail" then
      if ¬ hasKey d "InvoiceNo" then
        .error "No InvoiceNo found for DELETE operation on PaymentReceived (Retail)"
      else if ¬ hasKey d "Id" then
        .error "No Id found for DELETE operation on PaymentReceived (Retail)"
      else .ok (["InvoiceNo", "Id"], [getProp d "InvoiceNo", getProp d "Id"])
    else .ok ([], [])
  else if tableName = "Payment" then
    if ¬ hasKey d "Payment" then
      .error "No Payment found for DELETE operation on Payment"
    else .ok (["Payment"], [getProp d "Payment"])
  else
    if hasKey d "id" then .ok (["id"], [getProp d "id"])
    else .error ("No primary key found for DELETE operation on " ++ tableName)

/-- The parameterised DELETE statement produced by the dispatcher. -/
structure DeleteStmt where
  table : String
  whereFields : List String
  whereVals : List (Option JsValue)
deriving DecidableEq, Repr

/-- The DELETE case of `executeAdvancedSyncOperation` (src/app.js 369-478). -/
def buildDelete (tableName businessType : String) (d : Payload) :
    Except String DeleteStmt :=
  match deleteWhere tableName businessType d with
  | .error e => .error e
  | .ok (deleteFields, deleteVals) =>
    if deleteFields.isEmpty then
      .error ("No WHERE condition defined for DELETE operation on " ++ tableName ++
        " with businessType=" ++ businessType)
    else
      .ok { table := tableName, whereFields := deleteFields, whereVals := deleteVals }

/-- The upsert INSERT statement produced by the INSERT case of
`executeAdvancedSyncOperation` (src/app.js 184-199): all payload keys in
payload order, both as the column list and as the ON DUPLICATE KEY UPDATE list. -/
structure InsertStmt where
  table : String
  insertColumns : List String
  insertValues : List JsValue
  updateColumns : List String
deriving DecidableEq, Repr

/-- The INSERT case of `executeAdvancedSyncOperation` (src/app.js 184-199). -/
def buildInsert (tableName : String) (d : Payload) : InsertStmt :=
  { table := tableName,
    insertColumns := d.map (fun kv => kv.1),
    insertValues := d.map (fun kv => kv.2),
    updateColumns := d.map (fun kv => kv.1) }

/-- The SQL text of the upsert INSERT, as assembled in src/app.js 196. -/
def insertSql (st : InsertStmt) : String :=
  "INSERT INTO " ++ st.table ++ " (" ++
    String.intercalate ", " (st.insertColumns.map (fun k => "`" ++ k ++ "`")) ++
    ") VALUES (" ++ String.intercalate ", " (st.insertColumns.map (fun _ => "?")) ++
    ") ON DUPLICATE KEY UPDATE " ++
    String.intercalate ", " (st.updateColumns.map (fun k => "`" ++ k ++ "` = VALUES(`" ++ k ++ "`)"))

/-- A stored table row, a column/value map like a payload. -/
abbrev Row := Payload

/-- JS object assignment `obj[k] = v`: overwrite the existing entry in place,
else append (object keys are unique, so the first occurrence is the entry). -/
def jsObjSet : Payload → String → JsValue → Payload
  | [], k, v => [(k, v)]
  | kv :: rest, k, v => if kv.1 = k then (k, v) :: rest else kv :: jsObjSet rest k v

/-- Overwrite in `r` every column listed in `x` with the value from `x`
(the effect of `ON DUPLICATE KEY UPDATE ci = VALUES(ci)` over all payload keys). -/
def overwriteCols (r x : Row) : Row :=
  x.foldl (fun acc kv => jsObjSet acc kv.1 kv.2) r

/-- Two rows agree on every key column. -/
def rowKeyMatches (K : List String) (r x : Row) : Bool :=
  K.all (fun k => getProp r k = getProp x k)

/-- MySQL semantics of the generated
`INSERT ... ON DUPLICATE KEY UPDATE ci = VALUES(ci)` statement on a table whose
unique key is the column set `K`: update the row that collides on `K`, else
append the new row. -/
def applyUpsert (K : List String) (tbl : List Row) (x : Row) : List Row :=
  if tbl.any (fun r => rowKeyMatches K r x) then
    tbl.map (fun r => if rowKeyMatches K r x then overwriteCols r x else r)
  else tbl ++ [x]

/-- Modelled from the spec words of claim C2: the WHERE value of a primary-key
column `f` is taken from `old_f` whenever that key is present in the payload,
and from `f` otherwise. Compared below against what the code computes. -/
def specWhereValue (d : Payload) (f : String) : Option JsValue :=
  if hasKey d ("old_" ++ f) then getProp d ("old_" ++ f) else getProp d f

/-- Modelled from the spec words of claim C3: the primary-key policy table,
with `none` for pairs the spec leaves blank and the `id` fallback for tables
outside the table. Compared below against the WHERE fields the code computes. -/
def pkPolicy (tableName businessType : String) : Option (List String) :=
  if tableName = "Sales" then
    if businessType = "retail" then some ["InvoiceNo"]
    else if businessType = "hospitality" then some ["OrderNo"]
    else none
  else if tableName = "SalesDetail" then
    if businessType = "retail" then some ["InvoiceNo", "StockId"]
    else if businessType = "hospitality" then some ["OrderNo", "ItemCode"]
    else none
  else if tableName = "StockItems" then
    if businessType = "retail" then some ["StockId"] else none
  else if tableName = "MenuItem" then
    if businessType = "hospitality" then some ["ItemCode"] else none
  else if tableName = "SubMenuLinkDetail" then
    if businessType = "hospitality" then some ["ItemCode"] else none
  else if tableName = "PaymentReceived" then
    if businessType = "retail" then some ["InvoiceNo", "Id"]
    else if businessType = "hospitality" then some ["OrderNo", "Id"]
    else none
  else if tableName = "Payment" then some ["Payment"]
  else some ["id"]

/-- The policy the DELETE dispatch path actually follows (the amended claim C3):
like `pkPolicy` except that MenuItem and StockItems use their single-column key
for either business type and SubMenuLinkDetail is not special-cased, falling
through to the `id` fallback. -/
def deletePkPolicy (tableName businessType : String) : Option (List String) :=
  if tableName = "Sales" then
    if businessType = "retail" then some ["InvoiceNo"]
    else if businessType = "hospitality" then some ["OrderNo"]
    else none
  else if tableName = "SalesDetail" then
    if businessType = "retail" then some ["InvoiceNo", "StockId"]
    else if businessType = "hospitality" then some ["OrderNo", "ItemCode"]
    else none
  else if tableName = "StockItems" then some ["StockId"]
  else if tableName = "MenuItem" then some ["ItemCode"]
  else if tableName = "PaymentReceived" then
    if businessType = "retail" then some ["InvoiceNo", "Id"]
    else if businessType = "hospitality" then some ["OrderNo", "Id"]
    else none
  else if tableName = "Payment" then some ["Payment"]
  else some ["id"]

theorem getProp_cons (kv : String × JsValue) (rest : Payload) (k : String) :
    getProp (kv :: rest) k = if kv.1 = k then some kv.2 else getProp rest k := by
  by_cases h : kv.1 = k <;> simp [getProp, List.find?, h]

theorem hasKey_cons (kv : String × JsValue) (rest : Payload) (k : String) :
    hasKey (kv :: rest) k = (decide (kv.1 = k) || hasKey rest k) := by
  simp [hasKey]

theorem getProp_eq_none_of_not_hasKey (d : Payload) (k : String)
    (h : hasKey d k = false) : getProp d k = none := by
  induction d with
  | nil => simp [getProp]
  | cons kv rest ih =>
    rw [hasKey_cons] at h
    rw [getProp_cons]
    simp only [Bool.or_eq_false_iff, decide_eq_false_iff_not] at h
    simp [h.1, ih h.2]

theorem hasKey_iff_mem_keys (d : Payload) (k : String) :
    hasKey d k = true ↔ k ∈ d.map Prod.fst := by
  simp [hasKey, List.any_eq_true, List.mem_map]

theorem overwriteCols_nil (r : Row) : overwriteCols r [] = r := rfl

theorem overwriteCols_cons (r : Row) (kv : String × JsValue) (rest : Payload) :
    overwriteCols r (kv :: rest) = overwriteCols (jsObjSet r kv.1 kv.2) rest := rfl

theorem getProp_jsObjSet_self (m : Payload) (k : String) (v : JsValue) :
    getProp (jsObjSet m k v) k = some v := by
  induction m with
  | nil => simp [jsObjSet, getProp, List.find?]
  | cons kv rest ih =>
    by_cases h : kv.1 = k
    · rw [jsObjSet, if_pos h, getProp_cons]
      simp
    · rw [jsObjSet, if_neg h, getProp_cons]
      simp [h, ih]

theorem getProp_jsObjSet_other (m : Payload) (k k' : String) (v : JsValue)
    (hne : k' ≠ k) : getProp (jsObjSet m k v) k' = getProp m k' := by
  have hne2 : ¬ (k = k') := fun hc => hne hc.symm
  induction m with
  | nil =>
    rw [jsObjSet, getProp_cons]
    simp [getProp, hne2]
  | cons kv rest ih =>
    by_cases h : kv.1 = k
    · rw [jsObjSet, if_pos h, getProp_cons, getProp_cons, h]
      simp [hne2]
    · rw [jsObjSet, if_neg h, getProp_cons, getProp_cons, ih]

theorem jsObjSet_noop (m : Payload) (k : String) (v : JsValue)
    (h : getProp m k = some v) : jsObjSet m k v = m := by
  induction m with
  | nil => simp [getProp] at h
  | cons kv rest ih =>
    rw [getProp_cons] at h
    by_cases hk : kv.1 = k
    · simp only [hk, if_true, Option.some.injEq] at h
      rw [jsObjSet, if_pos hk, ← hk, ← h]
    · simp only [hk, if_false] at h
      rw [jsObjSet, if_neg hk, ih h]

theorem getProp_overwriteCols_not_hasKey (x : Payload) (r : Row) (k : String)
    (h : hasKey x k = false) : getProp (overwriteCols r x) k = getProp r k := by
  induction x generalizing r with
  | nil => rw [overwriteCols_nil]
  | cons kv rest ih =>
    rw [hasKey_cons] at h
    simp only [Bool.or_eq_false_iff, decide_eq_false_iff_not] at h
    rw [overwriteCols_cons, ih _ h.2,
      getProp_jsObjSet_other _ _ _ _ (fun he => h.1 he.symm)]

theorem getProp_overwriteCols_hasKey (x : Payload) (r : Row) (k : String)
    (hk : hasKey x k = true) (hnd : (x.map Prod.fst).Nodup) :
    getProp (overwriteCols r x) k = getProp x k := by
  induction x generalizing r with
  | nil => simp [hasKey] at hk
  | cons kv rest ih =>
    rw [hasKey_cons] at hk
    simp only [List.map_cons, List.nodup_cons] at hnd
    rw [overwriteCols_cons]
    by_cases h : kv.1 = k
    · have hrest : hasKey rest k = false := by
        by_contra hc
        simp only [Bool.not_eq_false] at hc
        exact hnd.1 (h ▸ (hasKey_iff_mem_keys rest k).1 hc)
      rw [getProp_overwriteCols_not_hasKey _ _ _ hrest, ← h,
        getProp_jsObjSet_self, getProp_cons, if_pos rfl]
    · simp only [Bool.or_eq_true, decide_eq_true_eq] at hk
      rcases hk with hk | hk
      · exact absurd hk h
      · rw [ih _ hk hnd.2, getProp_cons, if_neg h]

theorem overwriteCols_agree (x : Payload) (r : Row)
    (hnd : (x.map Prod.fst).Nodup)
    (hag : ∀ k, hasKey x k = true → getProp r k = getProp x k) :
    overwriteCols r x = r := by
  induction x generalizing r with
  | nil => rw [overwriteCols_nil]
  | cons kv rest ih =>
    simp only [List.map_cons, List.nodup_cons] at hnd
    rw [overwriteCols_cons]
    have hhead : getProp r kv.1 = some kv.2 := by
      rw [hag kv.1 (by rw [hasKey_cons]; simp), getProp_cons, if_pos rfl]
    rw [jsObjSet_noop _ _ _ hhead]
    refine ih r hnd.2 (fun k hk => ?_)
    have hne : kv.1 ≠ k := by
      intro he
      exact hnd.1 (he ▸ (hasKey_iff_mem_keys rest k).1 hk)
    rw [hag k (by rw [hasKey_cons, hk]; simp), getProp_cons, if_neg hne]

theorem overwriteCols_idem (x : Payload) (r : Row)
    (hnd : (x.map Prod.fst).Nodup) :
    overwriteCols (overwriteCols r x) x = overwriteCols r x := by
  refine overwriteCols_agree x _ hnd (fun k hk => getProp_overwriteCols_hasKey x r k hk hnd)

theorem overwriteCols_self (x : Payload) (hnd : (x.map Prod.fst).Nodup) :
    overwriteCols x x = x :=
  overwriteCols_agree x x hnd (fun _ _ => rfl)

theorem rowKeyMatches_overwriteCols (K : List String) (x : Payload) (r : Row)
    (hK : ∀ k ∈ K, hasKey x k = true) (hnd : (x.map Prod.fst).Nodup) :
    rowKeyMatches K (overwriteCols r x) x = true := by
  simp only [rowKeyMatches, List.all_eq_true, decide_eq_true_eq]
  exact fun k hk => getProp_overwriteCols_hasKey x r k (hK k hk) hnd

theorem rowKeyMatches_refl (K : List String) (x : Row) :
    rowKeyMatches K x x = true := by
  simp [rowKeyMatches]

/-- C4: the INSERT case of `executeAdvancedSyncOperation` lists every payload
key, in payload order, both as the inserted columns and in the ON DUPLICATE KEY
UPDATE list, and under the upsert semantics of that statement processing the
same INSERT payload twice leaves the table in the same state as processing it
once. -/
theorem insert_upsert_idempotent (tableName : String) (d : Payload)
    (K : List String) (tbl : List Row)
    (hK : ∀ k ∈ K, hasKey d k = true) (hnd : (d.map Prod.fst).Nodup) :
    (buildInsert tableName d).insertColumns = d.map Prod.fst ∧
    (buildInsert tableName d).updateColumns = d.map Prod.fst ∧
    applyUpsert K (applyUpsert K tbl d) d = applyUpsert K tbl d := by
  refine ⟨rfl, rfl, ?_⟩
  by_cases hmatch : tbl.any (fun r => rowKeyMatches K r d) = true
  · have h1 : applyUpsert K tbl d =
        tbl.map (fun r => if rowKeyMatches K r d then overwriteCols r d else r) := by
      rw [applyUpsert, if_pos hmatch]
    rw [h1]
    rw [List.any_eq_true] at hmatch
    obtain ⟨r0, hr0, hm0⟩ := hmatch
    have hmatch2 : (tbl.map
        (fun r => if rowKeyMatches K r d then overwriteCols r d else r)).any
        (fun r => rowKeyMatches K r d) = true := by
      rw [List.any_eq_true]
      refine ⟨overwriteCols r0 d, List.mem_map.2 ⟨r0, hr0, by rw [if_pos hm0]⟩, ?_⟩
      exact rowKeyMatches_overwriteCols K d r0 hK hnd
    rw [applyUpsert, if_pos hmatch2, List.map_map]
    refine List.map_congr_left (fun r _ => ?_)
    simp only [Function.comp_apply]
    by_cases hr : rowKeyMatches K r d = true
    · rw [if_pos hr, if_pos (rowKeyMatches_overwriteCols K d r hK hnd),
        overwriteCols_idem d r hnd]
    · rw [if_neg hr, if_neg hr]
  · have h1 : applyUpsert K tbl d = tbl ++ [d] := by
      rw [applyUpsert, if_neg hmatch]
    rw [h1]
    have hmatch2 : (tbl ++ [d]).any (fun r => rowKeyMatches K r d) = true := by
      rw [List.any_eq_true]
      exact ⟨d, by simp, rowKeyMatches_refl K d⟩
    rw [applyUpsert, if_pos hmatch2, List.map_append]
    have hall : ∀ r ∈ tbl, rowKeyMatches K r d = false := by
      intro r hr
      by_contra hc
      simp only [Bool.not_eq_false] at hc
      exact hmatch (List.any_eq_true.2 ⟨r, hr, hc⟩)
    congr 1
    · have hid : ∀ r ∈ tbl,
          (if rowKeyMatches K r d = true then overwriteCols r d else r) = id r := by
        intro r hr
        rw [if_neg (by rw [hall r hr]; simp)]
        rfl
      rw [List.map_congr_left hid, List.map_id]
    · simp only [List.map_cons, List.map_nil]
      rw [if_pos (rowKeyMatches_refl K d), overwriteCols_self d hnd]

/-- Witness for `insert_upsert_idempotent` at a concrete retail SalesDetail row. -/
theorem insert_upsert_idempotent_witness :
    (∀ k ∈ ["InvoiceNo", "StockId"],
      hasKey [("InvoiceNo", JsValue.vStr "7"), ("StockId", JsValue.vStr "S1"),
        ("Qty", JsValue.vNum 2)] k = true) ∧
    (buildInsert "SalesDetail" [("InvoiceNo", JsValue.vStr "7"),
        ("StockId", JsValue.vStr "S1"), ("Qty", JsValue.vNum 2)]).insertColumns =
      ["InvoiceNo", "StockId", "Qty"] ∧
    applyUpsert ["InvoiceNo", "StockId"]
      (applyUpsert ["InvoiceNo", "StockId"] []
        [("InvoiceNo", JsValue.vStr "7"), ("StockId", JsValue.vStr "S1"),
          ("Qty", JsValue.vNum 2)])
      [("InvoiceNo", JsValue.vStr "7"), ("StockId", JsValue.vStr "S1"),
        ("Qty", JsValue.vNum 2)] =
    applyUpsert ["InvoiceNo", "StockId"] []
      [("InvoiceNo", JsValue.vStr "7"), ("StockId", JsValue.vStr "S1"),
        ("Qty", JsValue.vNum 2)] := by
  refine ⟨by decide, ?_, ?_⟩
  · rfl
  · exact (insert_upsert_idempotent "SalesDetail"
      [("InvoiceNo", JsValue.vStr "7"), ("StockId", JsValue.vStr "S1"),
        ("Qty", JsValue.vNum 2)]
      ["InvoiceNo", "StockId"] [] (by decide) (by decide)).2.2

/-- The dispatcher rejected the operation: the sync handler caught a thrown
error and reported a failure (non-retryable: the server does not retry row
operations). -/
def isRejected {α : Type} : Except String α → Bool
  | .error _ => true
  | .ok _ => false

theorem isRejected_error {α : Type} (e : String) :
    isRejected (α := α) (.error e) = true := rfl

theorem isRejected_ok {α : Type} (a : α) : isRejected (.ok a) = false := rfl

set_option maxHeartbeats 4000000 in
theorem updateWhere_ok_props (t b : String) (d : Payload)
    (hb : b = "retail" ∨ b = "hospitality") (fs : List String)
    (vs : List (Option JsValue)) (h : updateWhere t b d = .ok (fs, vs))
    (hne : fs ≠ []) :
    pkPolicy t b = some fs ∧
    vs = fs.map (fun f => jsOr (getProp d ("old_" ++ f)) (getProp d f)) := by
  rcases hb with hb | hb <;> subst hb
  · by_cases h1 : t = "SalesDetail"
    · subst h1
      simp only [updateWhere, String.reduceEq, reduceIte] at h
      try split_ifs at h
      all_goals
        first
          | exact Except.noConfusion h
          | (injection h with hinj
             injection hinj with hfs hvs
             subst hfs
             subst hvs
             first
               | exact absurd rfl hne
               | exact ⟨rfl, rfl⟩)
    · by_cases h2 : t = "Sales"
      · subst h2
        simp only [updateWhere, String.reduceEq, reduceIte] at h
        try split_ifs at h
        all_goals
          first
            | exact Except.noConfusion h
            | (injection h with hinj
               injection hinj with hfs hvs
               subst hfs
               subst hvs
               first
                 | exact absurd rfl hne
                 | exact ⟨rfl, rfl⟩)
      · by_cases h3 : t = "StockItems"
        · subst h3
          simp only [updateWhere, String.reduceEq, reduceIte] at h
          try split_ifs at h
          all_goals
            first
              | exact Except.noConfusion h
              | (injection h with hinj
                 injection hinj with hfs hvs
                 subst hfs
                 subst hvs
                 first
                   | exact absurd rfl hne
                   | exact ⟨rfl, rfl⟩)
        · by_cases h4 : t = "MenuItem"
          · subst h4
            simp only [updateWhere, String.reduceEq, reduceIte] at h
            try split_ifs at h
            all_goals
              first
                | exact Except.noConfusion h
                | (injection h with hinj
                   injection hinj with hfs hvs
                   subst hfs
                   subst hvs
                   first
                     | exact absurd rfl hne
                     | exact ⟨rfl, rfl⟩)
          · by_cases h5 : t = "SubMenuLinkDetail"
            · subst h5
              simp only [updateWhere, String.reduceEq, reduceIte] at h
              try split_ifs at h
              all_goals
                first
                  | exact Except.noConfusion h
                  | (injection h with hinj
                     injection hinj with hfs hvs
                     subst hfs
                     subst hvs
                     first
                       | exact absurd rfl hne
                       | exact ⟨rfl, rfl⟩)
            · by_cases h6 : t = "PaymentReceived"
              · subst h6
                simp only [updateWhere, String.reduceEq, reduceIte] at h
                try split_ifs at h
                all_goals
                  first
                    | exact Except.noConfusion h
                    | (injection h with hinj
                       injection hinj with hfs hvs
                       subst hfs
                       subst hvs
                       first
                         | exact absurd rfl hne
                         | exact ⟨rfl, rfl⟩)
              · by_cases h7 : t = "Payment"
                · subst h7
                  simp only [updateWhere, String.reduceEq, reduceIte] at h
                  try split_ifs at h
                  all_goals
                    first
                      | exact Except.noConfusion h
                      | (injection h with hinj
                         injection hinj with hfs hvs
                         subst hfs
                         subst hvs
                         first
                           | exact absurd rfl hne
                           | exact ⟨rfl, rfl⟩)
                · unfold updateWhere at h
                  rw [if_neg h1, if_neg h2, if_neg h3, if_neg h4, if_neg h5, if_neg h6, if_neg h7] at h
                  try split_ifs at h
                  all_goals
                    first
                      | exact Except.noConfusion h
                      | (injection h with hinj
                         injection hinj with hfs hvs
                         subst hfs
                         subst hvs
                         first
                           | exact absurd rfl hne
                           | exact ⟨by unfold pkPolicy; rw [if_neg h2, if_neg h1, if_neg h3, if_neg h4, if_neg h5, if_neg h6, if_neg h7], rfl⟩)
  · by_cases h1 : t = "SalesDetail"
    · subst h1
      simp only [updateWhere, String.reduceEq, reduceIte] at h
      try split_ifs at h
      all_goals
        first
          | exact Except.noConfusion h
          | (injection h with hinj
             injection hinj with hfs hvs
             subst hfs
             subst hvs
             first
               | exact absurd rfl hne
               | exact ⟨rfl, rfl⟩)
    · by_cases h2 : t = "Sales"
      · subst h2
        simp only [updateWhere, String.reduceEq, reduceIte] at h
        try split_ifs at h
        all_goals
          first
            | exact Except.noConfusion h
            | (injection h with hinj
               injection hinj with hfs hvs
               subst hfs
               subst hvs
               first
                 | exact absurd rfl hne
                 | exact ⟨rfl, rfl⟩)
      · by_cases h3 : t = "StockItems"
        · subst h3
          simp only [updateWhere, String.reduceEq, reduceIte] at h
          try split_ifs at h
          all_goals
            first
              | exact Except.noConfusion h
              | (injection h with hinj
                 injection hinj with hfs hvs
                 subst hfs
                 subst hvs
                 first
                   | exact absurd rfl hne
                   | exact ⟨rfl, rfl⟩)
        · by_cases h4 : t = "MenuItem"
          · subst h4
            simp only [updateWhere, String.reduceEq, reduceIte] at h
            try split_ifs at h
            all_goals
              first
                | exact Except.noConfusion h
                | (injection h with hinj
                   injection hinj with hfs hvs
                   subst hfs
                   subst hvs
                   first
                     | exact absurd rfl hne
                     | exact ⟨rfl, rfl⟩)
          · by_cases h5 : t = "SubMenuLinkDetail"
            · subst h5
              simp only [updateWhere, String.reduceEq, reduceIte] at h
              try split_ifs at h
              all_goals
                first
                  | exact Except.noConfusion h
                  | (injection h with hinj
                     injection hinj with hfs hvs
                     subst hfs
                     subst hvs
                     first
                       | exact absurd rfl hne
                       | exact ⟨rfl, rfl⟩)
            · by_cases h6 : t = "PaymentReceived"
              · subst h6
                simp only [updateWhere, String.reduceEq, reduceIte] at h
                try split_ifs at h
                all_goals
                  first
                    | exact Except.noConfusion h
                    | (injection h with hinj
                       injection hinj with hfs hvs
                       subst hfs
                       subst hvs
                       first
                         | exact absurd rfl hne
                         | exact ⟨rfl, rfl⟩)
              · by_cases h7 : t = "Payment"
                · subst h7
                  simp only [updateWhere, String.reduceEq, reduceIte] at h
                  try split_ifs at h
                  all_goals
                    first
                      | exact Except.noConfusion h
                      | (injection h with hinj
                         injection hinj with hfs hvs
                         subst hfs
                         subst hvs
                         first
                           | exact absurd rfl hne
                           | exact ⟨rfl, rfl⟩)
                · unfold updateWhere at h
                  rw [if_neg h1, if_neg h2, if_neg h3, if_neg h4, if_neg h5, if_neg h6, if_neg h7] at h
                  try split_ifs at h
                  all_goals
                    first
                      | exact Except.noConfusion h
                      | (injection h with hinj
                         injection hinj with hfs hvs
                         subst hfs
                         subst hvs
                         first
                           | exact absurd rfl hne
                           | exact ⟨by unfold pkPolicy; rw [if_neg h2, if_neg h1, if_neg h3, if_neg h4, if_neg h5, if_neg h6, if_neg h7], rfl⟩)

set_option maxHeartbeats 4000000 in
theorem updateWhere_missing_rejected (t b : String) (d : Payload)
    (hb : b = "retail" ∨ b = "hospitality") (fs : List String)
    (hp : pkPolicy t b = some fs) (f : String) (hf : f ∈ fs)
    (hm1 : hasKey d f = false) (hm2 : hasKey d ("old_" ++ f) = false) :
    isRejected (updateWhere t b d) = true := by
  rcases hb with hb | hb <;> subst hb
  · by_cases h1 : t = "SalesDetail"
    · subst h1
      simp only [pkPolicy, String.reduceEq, reduceIte] at hp
      first
        | exact Option.noConfusion hp
        | (injection hp with hfs
           subst hfs
           simp only [List.mem_cons, List.mem_singleton, List.not_mem_nil,
             or_false] at hf
           first
             | (rcases hf with rfl | rfl <;>
                 simp_all [updateWhere, isRejected_error, isRejected_ok, apply_ite isRejected,
                   getProp_eq_none_of_not_hasKey, jsOr, truthyOpt])
             | (subst hf
                simp_all [updateWhere, isRejected_error, isRejected_ok, apply_ite isRejected,
                  getProp_eq_none_of_not_hasKey, jsOr, truthyOpt]))
    · by_cases h2 : t = "Sales"
      · subst h2
        simp only [pkPolicy, String.reduceEq, reduceIte] at hp
        first
          | exact Option.noConfusion hp
          | (injection hp with hfs
             subst hfs
             simp only [List.mem_cons, List.mem_singleton, List.not_mem_nil,
               or_false] at hf
             first
               | (rcases hf with rfl | rfl <;>
                   simp_all [updateWhere, isRejected_error, isRejected_ok, apply_ite isRejected,
                     getProp_eq_none_of_not_hasKey, jsOr, truthyOpt])
               | (subst hf
                  simp_all [updateWhere, isRejected_error, isRejected_ok, apply_ite isRejected,
                    getProp_eq_none_of_not_hasKey, jsOr, truthyOpt]))
      · by_cases h3 : t = "StockItems"
        · subst h3
          simp only [pkPolicy, String.reduceEq, reduceIte] at hp
          first
            | exact Option.noConfusion hp
            | (injection hp with hfs
               subst hfs
               simp only [List.mem_cons, List.mem_singleton, List.not_mem_nil,
                 or_false] at hf
               first
                 | (rcases hf with rfl | rfl <;>
                     simp_all [updateWhere, isRejected_error, isRejected_ok, apply_ite isRejected,
                       getProp_eq_none_of_not_hasKey, jsOr, truthyOpt])
                 | (subst hf
                    simp_all [updateWhere, isRejected_error, isRejected_ok, apply_ite isRejected,
                      getProp_eq_none_of_not_hasKey, jsOr, truthyOpt]))
        · by_cases h4 : t = "MenuItem"
          · subst h4
            simp only [pkPolicy, String.reduceEq, reduceIte] at hp
            first
              | exact Option.noConfusion hp
              | (injection hp with hfs
                 subst hfs
                 simp only [List.mem_cons, List.mem_singleton, List.not_mem_nil,
                   or_false] at hf
                 first
                   | (rcases hf with rfl | rfl <;>
                       simp_all [updateWhere, isRejected_error, isRejected_ok, apply_ite isRejected,
                         getProp_eq_none_of_not_hasKey, jsOr, truthyOpt])
                   | (subst hf
                      simp_all [updateWhere, isRejected_error, isRejected_ok, apply_ite isRejected,
                        getProp_eq_none_of_not_hasKey, jsOr, truthyOpt]))
          · by_cases h5 : t = "SubMenuLinkDetail"
            · subst h5
              simp only [pkPolicy, String.reduceEq, reduceIte] at hp
              first
                | exact Option.noConfusion hp
                | (injection hp with hfs
                   subst hfs
                   simp only [List.mem_cons, List.mem_singleton, List.not_mem_nil,
                     or_false] at hf
                   first
                     | (rcases hf with rfl | rfl <;>
                         simp_all [updateWhere, isRejected_error, isRejected_ok, apply_ite isRejected,
                           getProp_eq_none_of_not_hasKey, jsOr, truthyOpt])
                     | (subst hf
                        simp_all [updateWhere, isRejected_error, isRejected_ok, apply_ite isRejected,
                          getProp_eq_none_of_not_hasKey, jsOr, truthyOpt]))
            · by_cases h6 : t = "PaymentReceived"
              · subst h6
                simp only [pkPolicy, String.reduceEq, reduceIte] at hp
                first
                  | exact Option.noConfusion hp
                  | (injection hp with hfs
                     subst hfs
                     simp only [List.mem_cons, List.mem_singleton, List.not_mem_nil,
                       or_false] at hf
                     first
                       | (rcases hf with rfl | rfl <;>
                           simp_all [updateWhere, isRejected_error, isRejected_ok, apply_ite isRejected,
                             getProp_eq_none_of_not_hasKey, jsOr, truthyOpt])
                       | (subst hf
                          simp_all [updateWhere, isRejected_error, isRejected_ok, apply_ite isRejected,
                            getProp_eq_none_of_not_hasKey, jsOr, truthyOpt]))
              · by_cases h7 : t = "Payment"
                · subst h7
                  simp only [pkPolicy, String.reduceEq, reduceIte] at hp
                  first
                    | exact Option.noConfusion hp
                    | (injection hp with hfs
                       subst hfs
                       simp only [List.mem_cons, List.mem_singleton, List.not_mem_nil,
                         or_false] at hf
                       first
                         | (rcases hf with rfl | rfl <;>
                             simp_all [updateWhere, isRejected_error, isRejected_ok, apply_ite isRejected,
                               getProp_eq_none_of_not_hasKey, jsOr, truthyOpt])
                         | (subst hf
                            simp_all [updateWhere, isRejected_error, isRejected_ok, apply_ite isRejected,
                              getProp_eq_none_of_not_hasKey, jsOr, truthyOpt]))
                · unfold pkPolicy at hp
                  rw [if_neg h2, if_neg h1, if_neg h3, if_neg h4, if_neg h5, if_neg h6, if_neg h7] at hp
                  first
                    | exact Option.noConfusion hp
                    | (injection hp with hfs
                       subst hfs
                       simp only [List.mem_cons, List.mem_singleton, List.not_mem_nil,
                         or_false] at hf
                       first
                         | (rcases hf with rfl | rfl <;>
                             simp_all [updateWhere, isRejected_error, isRejected_ok, apply_ite isRejected,
                               getProp_eq_none_of_not_hasKey, jsOr, truthyOpt])
                         | (subst hf
                            simp_all [updateWhere, isRejected_error, isRejected_ok, apply_ite isRejected,
                              getProp_eq_none_of_not_hasKey, jsOr, truthyOpt]))
  · by_cases h1 : t = "SalesDetail"
    · subst h1
      simp only [pkPolicy, String.reduceEq, reduceIte] at hp
      first
        | exact Option.noConfusion hp
        | (injection hp with hfs
           subst hfs
           simp only [List.mem_cons, List.mem_singleton, List.not_mem_nil,
             or_false] at hf
           first
             | (rcases hf with rfl | rfl <;>
                 simp_all [updateWhere, isRejected_error, isRejected_ok, apply_ite isRejected,
                   getProp_eq_none_of_not_hasKey, jsOr, truthyOpt])
             | (subst hf
                simp_all [updateWhere, isRejected_error, isRejected_ok, apply_ite isRejected,
                  getProp_eq_none_of_not_hasKey, jsOr, truthyOpt]))
    · by_cases h2 : t = "Sales"
      · subst h2
        simp only [pkPolicy, String.reduceEq, reduceIte] at hp
        first
          | exact Option.noConfusion hp
          | (injection hp with hfs
             subst hfs
             simp only [List.mem_cons, List.mem_singleton, List.not_mem_nil,
               or_false] at hf
             first
               | (rcases hf with rfl | rfl <;>
                   simp_all [updateWhere, isRejected_error, isRejected_ok, apply_ite isRejected,
                     getProp_eq_none_of_not_hasKey, jsOr, truthyOpt])
               | (subst hf
                  simp_all [updateWhere, isRejected_error, isRejected_ok, apply_ite isRejected,
                    getProp_eq_none_of_not_hasKey, jsOr, truthyOpt]))
      · by_cases h3 : t = "StockItems"
        · subst h3
          simp only [pkPolicy, String.reduceEq, reduceIte] at hp
          first
            | exact Option.noConfusion hp
            | (injection hp with hfs
               subst hfs
               simp only [List.mem_cons, List.mem_singleton, List.not_mem_nil,
                 or_false] at hf
               first
                 | (rcases hf with rfl | rfl <;>
                     simp_all [updateWhere, isRejected_error, isRejected_ok, apply_ite isRejected,
                       getProp_eq_none_of_not_hasKey, jsOr, truthyOpt])
                 | (subst hf
                    simp_all [updateWhere, isRejected_error, isRejected_ok, apply_ite isRejected,
                      getProp_eq_none_of_not_hasKey, jsOr, truthyOpt]))
        · by_cases h4 : t = "MenuItem"
          · subst h4
            simp only [pkPolicy, String.reduceEq, reduceIte] at hp
            first
              | exact Option.noConfusion hp
              | (injection hp with hfs
                 subst hfs
                 simp only [List.mem_cons, List.mem_singleton, List.not_mem_nil,
                   or_false] at hf
                 first
                   | (rcases hf with rfl | rfl <;>
                       simp_all [updateWhere, isRejected_error, isRejected_ok, apply_ite isRejected,
                         getProp_eq_none_of_not_hasKey, jsOr, truthyOpt])
                   | (subst hf
                      simp_all [updateWhere, isRejected_error, isRejected_ok, apply_ite isRejected,
                        getProp_eq_none_of_not_hasKey, jsOr, truthyOpt]))
          · by_cases h5 : t = "SubMenuLinkDetail"
            · subst h5
              simp only [pkPolicy, String.reduceEq, reduceIte] at hp
              first
                | exact Option.noConfusion hp
                | (injection hp with hfs
                   subst hfs
                   simp only [List.mem_cons, List.mem_singleton, List.not_mem_nil,
                     or_false] at hf
                   first
                     | (rcases hf with rfl | rfl <;>
                         simp_all [updateWhere, isRejected_error, isRejected_ok, apply_ite isRejected,
                           getProp_eq_none_of_not_hasKey, jsOr, truthyOpt])
                     | (subst hf
                        simp_all [updateWhere, isRejected_error, isRejected_ok, apply_ite isRejected,
                          getProp_eq_none_of_not_hasKey, jsOr, truthyOpt]))
            · by_cases h6 : t = "PaymentReceived"
              · subst h6
                simp only [pkPolicy, String.reduceEq, reduceIte] at hp
                first
                  | exact Option.noConfusion hp
                  | (injection hp with hfs
                     subst hfs
                     simp only [List.mem_cons, List.mem_singleton, List.not_mem_nil,
                       or_false] at hf
                     first
                       | (rcases hf with rfl | rfl <;>
                           simp_all [updateWhere, isRejected_error, isRejected_ok, apply_ite isRejected,
                             getProp_eq_none_of_not_hasKey, jsOr, truthyOpt])
                       | (subst hf
                          simp_all [updateWhere, isRejected_error, isRejected_ok, apply_ite isRejected,
                            getProp_eq_none_of_not_hasKey, jsOr, truthyOpt]))
              · by_cases h7 : t = "Payment"
                · subst h7
                  simp only [pkPolicy, String.reduceEq, reduceIte] at hp
                  first
                    | exact Option.noConfusion hp
                    | (injection hp with hfs
                       subst hfs
                       simp only [List.mem_cons, List.mem_singleton, List.not_mem_nil,
                         or_false] at hf
                       first
                         | (rcases hf with rfl | rfl <;>
                             simp_all [updateWhere, isRejected_error, isRejected_ok, apply_ite isRejected,
                               getProp_eq_none_of_not_hasKey, jsOr, truthyOpt])
                         | (subst hf
                            simp_all [updateWhere, isRejected_error, isRejected_ok, apply_ite isRejected,
                              getProp_eq_none_of_not_hasKey, jsOr, truthyOpt]))
                · unfold pkPolicy at hp
                  rw [if_neg h2, if_neg h1, if_neg h3, if_neg h4, if_neg h5, if_neg h6, if_neg h7] at hp
                  first
                    | exact Option.noConfusion hp
                    | (injection hp with hfs
                       subst hfs
                       simp only [List.mem_cons, List.mem_singleton, List.not_mem_nil,
                         or_false] at hf
                       first
                         | (rcases hf with rfl | rfl <;>
                             simp_all [updateWhere, isRejected_error, isRejected_ok, apply_ite isRejected,
                               getProp_eq_none_of_not_hasKey, jsOr, truthyOpt])
                         | (subst hf
                            simp_all [updateWhere, isRejected_error, isRejected_ok, apply_ite isRejected,
                              getProp_eq_none_of_not_hasKey, jsOr, truthyOpt]))

set_option maxHeartbeats 4000000 in
theorem deleteWhere_ok_props (t b : String) (d : Payload)
    (hb : b = "retail" ∨ b = "hospitality") (fs : List String)
    (vs : List (Option JsValue)) (h : deleteWhere t b d = .ok (fs, vs))
    (hne : fs ≠ []) :
    deletePkPolicy t b = some fs ∧ vs = fs.map (fun f => getProp d f) := by
  rcases hb with hb | hb <;> subst hb
  · by_cases h1 : t = "SalesDetail"
    · subst h1
      simp only [deleteWhere, String.reduceEq, reduceIte] at h
      try split_ifs at h
      all_goals
        first
          | exact Except.noConfusion h
          | (injection h with hinj
             injection hinj with hfs hvs
             subst hfs
             subst hvs
             first
               | exact absurd rfl hne
               | exact ⟨rfl, rfl⟩)
    · by_cases h2 : t = "Sales"
      · subst h2
        simp only [deleteWhere, String.reduceEq, reduceIte] at h
        try split_ifs at h
        all_goals
          first
            | exact Except.noConfusion h
            | (injection h with hinj
               injection hinj with hfs hvs
               subst hfs
               subst hvs
               first
                 | exact absurd rfl hne
                 | exact ⟨rfl, rfl⟩)
      · by_cases h3 : t = "MenuItem"
        · subst h3
          simp only [deleteWhere, String.reduceEq, reduceIte] at h
          try split_ifs at h
          all_goals
            first
              | exact Except.noConfusion h
              | (injection h with hinj
                 injection hinj with hfs hvs
                 subst hfs
                 subst hvs
                 first
                   | exact absurd rfl hne
                   | exact ⟨rfl, rfl⟩)
        · by_cases h4 : t = "StockItems"
          · subst h4
            simp only [deleteWhere, String.reduceEq, reduceIte] at h
            try split_ifs at h
            all_goals
              first
                | exact Except.noConfusion h
                | (injection h with hinj
                   injection hinj with hfs hvs
                   subst hfs
                   subst hvs
                   first
                     | exact absurd rfl hne
                     | exact ⟨rfl, rfl⟩)
          · by_cases h5 : t = "PaymentReceived"
            · subst h5
              simp only [deleteWhere, String.reduceEq, reduceIte] at h
              try split_ifs at h
              all_goals
                first
                  | exact Except.noConfusion h
                  | (injection h with hinj
                     injection hinj with hfs hvs
                     subst hfs
                     subst hvs
                     first
                       | exact absurd rfl hne
                       | exact ⟨rfl, rfl⟩)
            · by_cases h6 : t = "Payment"
              · subst h6
                simp only [deleteWhere, String.reduceEq, reduceIte] at h
                try split_ifs at h
                all_goals
                  first
                    | exact Except.noConfusion h
                    | (injection h with hinj
                       injection hinj with hfs hvs
                       subst hfs
                       subst hvs
                       first
                         | exact absurd rfl hne
                         | exact ⟨rfl, rfl⟩)
              · unfold deleteWhere at h
                rw [if_neg h1, if_neg h2, if_neg h3, if_neg h4, if_neg h5, if_neg h6] at h
                try split_ifs at h
                all_goals
                  first
                    | exact Except.noConfusion h
                    | (injection h with hinj
                       injection hinj with hfs hvs
                       subst hfs
                       subst hvs
                       first
                         | exact absurd rfl hne
                         | exact ⟨by unfold deletePkPolicy; rw [if_neg h2, if_neg h1, if_neg h4, if_neg h3, if_neg h5, if_neg h6], rfl⟩)
  · by_cases h1 : t = "SalesDetail"
    · subst h1
      simp only [deleteWhere, String.reduceEq, reduceIte] at h
      try split_ifs at h
      all_goals
        first
          | exact Except.noConfusion h
          | (injection h with hinj
             injection hinj with hfs hvs
             subst hfs
             subst hvs
             first
               | exact absurd rfl hne
               | exact ⟨rfl, rfl⟩)
    · by_cases h2 : t = "Sales"
      · subst h2
        simp only [deleteWhere, String.reduceEq, reduceIte] at h
        try split_ifs at h
        all_goals
          first
            | exact Except.noConfusion h
            | (injection h with hinj
               injection hinj with hfs hvs
               subst hfs
               subst hvs
               first
                 | exact absurd rfl hne
                 | exact ⟨rfl, rfl⟩)
      · by_cases h3 : t = "MenuItem"
        · subst h3
          simp only [deleteWhere, String.reduceEq, reduceIte] at h
          try split_ifs at h
          all_goals
            first
              | exact Except.noConfusion h
              | (injection h with hinj
                 injection hinj with hfs hvs
                 subst hfs
                 subst hvs
                 first
                   | exact absurd rfl hne
                   | exact ⟨rfl, rfl⟩)
        · by_cases h4 : t = "StockItems"
          · subst h4
            simp only [deleteWhere, String.reduceEq, reduceIte] at h
            try split_ifs at h
            all_goals
              first
                | exact Except.noConfusion h
                | (injection h with hinj
                   injection hinj with hfs hvs
                   subst hfs
                   subst hvs
                   first
                     | exact absurd rfl hne
                     | exact ⟨rfl, rfl⟩)
          · by_cases h5 : t = "PaymentReceived"
            · subst h5
              simp only [deleteWhere, String.reduceEq, reduceIte] at h
              try split_ifs at h
              all_goals
                first
                  | exact Except.noConfusion h
                  | (injection h with hinj
                     injection hinj with hfs hvs
                     subst hfs
                     subst hvs
                     first
                       | exact absurd rfl hne
                       | exact ⟨rfl, rfl⟩)
            · by_cases h6 : t = "Payment"
              · subst h6
                simp only [deleteWhere, String.reduceEq, reduceIte] at h
                try split_ifs at h
                all_goals
                  first
                    | exact Except.noConfusion h
                    | (injection h with hinj
                       injection hinj with hfs hvs
                       subst hfs
                       subst hvs
                       first
                         | exact absurd rfl hne
                         | exact ⟨rfl, rfl⟩)
              · unfold deleteWhere at h
                rw [if_neg h1, if_neg h2, if_neg h3, if_neg h4, if_neg h5, if_neg h6] at h
                try split_ifs at h
                all_goals
                  first
                    | exact Except.noConfusion h
                    | (injection h with hinj
                       injection hinj with hfs hvs
                       subst hfs
                       subst hvs
                       first
                         | exact absurd rfl hne
                         | exact ⟨by unfold deletePkPolicy; rw [if_neg h2, if_neg h1, if_neg h4, if_neg h3, if_neg h5, if_neg h6], rfl⟩)

set_option maxHeartbeats 4000000 in
theorem deleteWhere_missing_rejected (t b : String) (d : Payload)
    (hb : b = "retail" ∨ b = "hospitality") (fs : List String)
    (hp : deletePkPolicy t b = some fs) (f : String) (hf : f ∈ fs)
    (hm1 : hasKey d f = false) :
    isRejected (deleteWhere t b d) = true := by
  rcases hb with hb | hb <;> subst hb
  · by_cases h1 : t = "SalesDetail"
    · subst h1
      simp only [deletePkPolicy, String.reduceEq, reduceIte] at hp
      first
        | exact Option.noConfusion hp
        | (injection hp with hfs
           subst hfs
           simp only [List.mem_cons, List.mem_singleton, List.not_mem_nil,
             or_false] at hf
           first
             | (rcases hf with rfl | rfl <;>
                 simp_all [deleteWhere, isRejected_error, isRejected_ok, apply_ite isRejected,
                   getProp_eq_none_of_not_hasKey, jsOr, truthyOpt])
             | (subst hf
                simp_all [deleteWhere, isRejected_error, isRejected_ok, apply_ite isRejected,
                  getProp_eq_none_of_not_hasKey, jsOr, truthyOpt]))
    · by_cases h2 : t = "Sales"
      · subst h2
        simp only [deletePkPolicy, String.reduceEq, reduceIte] at hp
        first
          | exact Option.noConfusion hp
          | (injection hp with hfs
             subst hfs
             simp only [List.mem_cons, List.mem_singleton, List.not_mem_nil,
               or_false] at hf
             first
               | (rcases hf with rfl | rfl <;>
                   simp_all [deleteWhere, isRejected_error, isRejected_ok, apply_ite isRejected,
                     getProp_eq_none_of_not_hasKey, jsOr, truthyOpt])
               | (subst hf
                  simp_all [deleteWhere, isRejected_error, isRejected_ok, apply_ite isRejected,
                    getProp_eq_none_of_not_hasKey, jsOr, truthyOpt]))
      · by_cases h3 : t = "MenuItem"
        · subst h3
          simp only [deletePkPolicy, String.reduceEq, reduceIte] at hp
          first
            | exact Option.noConfusion hp
            | (injection hp with hfs
               subst hfs
               simp only [List.mem_cons, List.mem_singleton, List.not_mem_nil,
                 or_false] at hf
               first
                 | (rcases hf with rfl | rfl <;>
                     simp_all [deleteWhere, isRejected_error, isRejected_ok, apply_ite isRejected,
                       getProp_eq_none_of_not_hasKey, jsOr, truthyOpt])
                 | (subst hf
                    simp_all [deleteWhere, isRejected_error, isRejected_ok, apply_ite isRejected,
                      getProp_eq_none_of_not_hasKey, jsOr, truthyOpt]))
        · by_cases h4 : t = "StockItems"
          · subst h4
            simp only [deletePkPolicy, String.reduceEq, reduceIte] at hp
            first
              | exact Option.noConfusion hp
              | (injection hp with hfs
                 subst hfs
                 simp only [List.mem_cons, List.mem_singleton, List.not_mem_nil,
                   or_false] at hf
                 first
                   | (rcases hf with rfl | rfl <;>
                       simp_all [deleteWhere, isRejected_error, isRejected_ok, apply_ite isRejected,
                         getProp_eq_none_of_not_hasKey, jsOr, truthyOpt])
                   | (subst hf
                      simp_all [deleteWhere, isRejected_error, isRejected_ok, apply_ite isRejected,
                        getProp_eq_none_of_not_hasKey, jsOr, truthyOpt]))
          · by_cases h5 : t = "PaymentReceived"
            · subst h5
              simp only [deletePkPolicy, String.reduceEq, reduceIte] at hp
              first
                | exact Option.noConfusion hp
                | (injection hp with hfs
                   subst hfs
                   simp only [List.mem_cons, List.mem_singleton, List.not_mem_nil,
                     or_false] at hf
                   first
                     | (rcases hf with rfl | rfl <;>
                         simp_all [deleteWhere, isRejected_error, isRejected_ok, apply_ite isRejected,
                           getProp_eq_none_of_not_hasKey, jsOr, truthyOpt])
                     | (subst hf
                        simp_all [deleteWhere, isRejected_error, isRejected_ok, apply_ite isRejected,
                          getProp_eq_none_of_not_hasKey, jsOr, truthyOpt]))
            · by_cases h6 : t = "Payment"
              · subst h6
                simp only [deletePkPolicy, String.reduceEq, reduceIte] at hp
                first
                  | exact Option.noConfusion hp
                  | (injection hp with hfs
                     subst hfs
                     simp only [List.mem_cons, List.mem_singleton, List.not_mem_nil,
                       or_false] at hf
                     first
                       | (rcases hf with rfl | rfl <;>
                           simp_all [deleteWhere, isRejected_error, isRejected_ok, apply_ite isRejected,
                             getProp_eq_none_of_not_hasKey, jsOr, truthyOpt])
                       | (subst hf
                          simp_all [deleteWhere, isRejected_error, isRejected_ok, apply_ite isRejected,
                            getProp_eq_none_of_not_hasKey, jsOr, truthyOpt]))
              · unfold deletePkPolicy at hp
                rw [if_neg h2, if_neg h1, if_neg h4, if_neg h3, if_neg h5, if_neg h6] at hp
                first
                  | exact Option.noConfusion hp
                  | (injection hp with hfs
                     subst hfs
                     simp only [List.mem_cons, List.mem_singleton, List.not_mem_nil,
                       or_false] at hf
                     first
                       | (rcases hf with rfl | rfl <;>
                           simp_all [deleteWhere, isRejected_error, isRejected_ok, apply_ite isRejected,
                             getProp_eq_none_of_not_hasKey, jsOr, truthyOpt])
                       | (subst hf
                          simp_all [deleteWhere, isRejected_error, isRejected_ok, apply_ite isRejected,
                            getProp_eq_none_of_not_hasKey, jsOr, truthyOpt]))
  · by_cases h1 : t = "SalesDetail"
    · subst h1
      simp only [deletePkPolicy, String.reduceEq, reduceIte] at hp
      first
        | exact Option.noConfusion hp
        | (injection hp with hfs
           subst hfs
           simp only [List.mem_cons, List.mem_singleton, List.not_mem_nil,
             or_false] at hf
           first
             | (rcases hf with rfl | rfl <;>
                 simp_all [deleteWhere, isRejected_error, isRejected_ok, apply_ite isRejected,
                   getProp_eq_none_of_not_hasKey, jsOr, truthyOpt])
             | (subst hf
                simp_all [deleteWhere, isRejected_error, isRejected_ok, apply_ite isRejected,
                  getProp_eq_none_of_not_hasKey, jsOr, truthyOpt]))
    · by_cases h2 : t = "Sales"
      · subst h2
        simp only [deletePkPolicy, String.reduceEq, reduceIte] at hp
        first
          | exact Option.noConfusion hp
          | (injection hp with hfs
             subst hfs
             simp only [List.mem_cons, List.mem_singleton, List.not_mem_nil,
               or_false] at hf
             first
               | (rcases hf with rfl | rfl <;>
                   simp_all [deleteWhere, isRejected_error, isRejected_ok, apply_ite isRejected,
                     getProp_eq_none_of_not_hasKey, jsOr, truthyOpt])
               | (subst hf
                  simp_all [deleteWhere, isRejected_error, isRejected_ok, apply_ite isRejected,
                    getProp_eq_none_of_not_hasKey, jsOr, truthyOpt]))
      · by_cases h3 : t = "MenuItem"
        · subst h3
          simp only [deletePkPolicy, String.reduceEq, reduceIte] at hp
          first
            | exact Option.noConfusion hp
            | (injection hp with hfs
               subst hfs
               simp only [List.mem_cons, List.mem_singleton, List.not_mem_nil,
                 or_false] at hf
               first
                 | (rcases hf with rfl | rfl <;>
                     simp_all [deleteWhere, isRejected_error, isRejected_ok, apply_ite isRejected,
                       getProp_eq_none_of_not_hasKey, jsOr, truthyOpt])
                 | (subst hf
                    simp_all [deleteWhere, isRejected_error, isRejected_ok, apply_ite isRejected,
                      getProp_eq_none_of_not_hasKey, jsOr, truthyOpt]))
        · by_cases h4 : t = "StockItems"
          · subst h4
            simp only [deletePkPolicy, String.reduceEq, reduceIte] at hp
            first
              | exact Option.noConfusion hp
              | (injection hp with hfs
                 subst hfs
                 simp only [List.mem_cons, List.mem_singleton, List.not_mem_nil,
                   or_false] at hf
                 first
                   | (rcases hf with rfl | rfl <;>
                       simp_all [deleteWhere, isRejected_error, isRejected_ok, apply_ite isRejected,
                         getProp_eq_none_of_not_hasKey, jsOr, truthyOpt])
                   | (subst hf
                      simp_all [deleteWhere, isRejected_error, isRejected_ok, apply_ite isRejected,
                        getProp_eq_none_of_not_hasKey, jsOr, truthyOpt]))
          · by_cases h5 : t = "PaymentReceived"
            · subst h5
              simp only [deletePkPolicy, String.reduceEq, reduceIte] at hp
              first
                | exact Option.noConfusion hp
                | (injection hp with hfs
                   subst hfs
                   simp only [List.mem_cons, List.mem_singleton, List.not_mem_nil,
                     or_false] at hf
                   first
                     | (rcases hf with rfl | rfl <;>
                         simp_all [deleteWhere, isRejected_error, isRejected_ok, apply_ite isRejected,
                           getProp_eq_none_of_not_hasKey, jsOr, truthyOpt])
                     | (subst hf
                        simp_all [deleteWhere, isRejected_error, isRejected_ok, apply_ite isRejected,
                          getProp_eq_none_of_not_hasKey, jsOr, truthyOpt]))
            · by_cases h6 : t = "Payment"
              · subst h6
                simp only [deletePkPolicy, String.reduceEq, reduceIte] at hp
                first
                  | exact Option.noConfusion hp
                  | (injection hp with hfs
                     subst hfs
                     simp only [List.mem_cons, List.mem_singleton, List.not_mem_nil,
                       or_false] at hf
                     first
                       | (rcases hf with rfl | rfl <;>
                           simp_all [deleteWhere, isRejected_error, isRejected_ok, apply_ite isRejected,
                             getProp_eq_none_of_not_hasKey, jsOr, truthyOpt])
                       | (subst hf
                          simp_all [deleteWhere, isRejected_error, isRejected_ok, apply_ite isRejected,
                            getProp_eq_none_of_not_hasKey, jsOr, truthyOpt]))
              · unfold deletePkPolicy at hp
                rw [if_neg h2, if_neg h1, if_neg h4, if_neg h3, if_neg h5, if_neg h6] at hp
                first
                  | exact Option.noConfusion hp
                  | (injection hp with hfs
                     subst hfs
                     simp only [List.mem_cons, List.mem_singleton, List.not_mem_nil,
                       or_false] at hf
                     first
                       | (rcases hf with rfl | rfl <;>
                           simp_all [deleteWhere, isRejected_error, isRejected_ok, apply_ite isRejected,
                             getProp_eq_none_of_not_hasKey, jsOr, truthyOpt])
                       | (subst hf
                          simp_all [deleteWhere, isRejected_error, isRejected_ok, apply_ite isRejected,
                            getProp_eq_none_of_not_hasKey, jsOr, truthyOpt]))


theorem buildUpdate_ok_inv (t b : String) (d : Payload) (stmt : UpdateStmt)
    (h : buildUpdate t b d = .ok stmt) :
    updateWhere t b d = .ok (stmt.whereFields, stmt.whereVals) ∧
    stmt.whereFields ≠ [] ∧
    stmt.setCols =
      (d.filter (fun kv => ¬ startsWithOld kv.1)).map (fun kv => kv.1) := by
  unfold buildUpdate at h
  cases hw : updateWhere t b d with
  | error e => rw [hw] at h; exact Except.noConfusion h
  | ok p =>
    obtain ⟨fs, vs⟩ := p
    rw [hw] at h
    simp only [] at h
    by_cases hs :
        (d.filter (fun kv => ¬ startsWithOld kv.1 = true)).isEmpty = true
    · rw [if_pos hs] at h
      exact Except.noConfusion h
    · rw [if_neg hs] at h
      by_cases hwf : fs.isEmpty = true
      · rw [if_pos hwf] at h
        exact Except.noConfusion h
      · rw [if_neg hwf] at h
        injection h with h1
        subst h1
        refine ⟨rfl, ?_, rfl⟩
        intro hcon
        simp only [UpdateStmt.whereFields] at hcon
        rw [hcon] at hwf
        simp at hwf

theorem buildUpdate_rejected (t b : String) (d : Payload)
    (h : isRejected (updateWhere t b d) = true) :
    isRejected (buildUpdate t b d) = true := by
  unfold buildUpdate
  cases hw : updateWhere t b d with
  | error e => rfl
  | ok p =>
    rw [hw, isRejected_ok] at h
    exact Bool.noConfusion h

theorem buildDelete_ok_inv (t b : String) (d : Payload) (stmt : DeleteStmt)
    (h : buildDelete t b d = .ok stmt) :
    deleteWhere t b d = .ok (stmt.whereFields, stmt.whereVals) ∧
    stmt.whereFields ≠ [] := by
  unfold buildDelete at h
  cases hw : deleteWhere t b d with
  | error e => rw [hw] at h; exact Except.noConfusion h
  | ok p =>
    obtain ⟨fs, vs⟩ := p
    rw [hw] at h
    simp only [] at h
    by_cases hwf : fs.isEmpty = true
    · rw [if_pos hwf] at h
      exact Except.noConfusion h
    · rw [if_neg hwf] at h
      injection h with h1
      subst h1
      refine ⟨rfl, ?_⟩
      intro hcon
      simp only [DeleteStmt.whereFields] at hcon
      rw [hcon] at hwf
      simp at hwf

theorem buildDelete_rejected (t b : String) (d : Payload)
    (h : isRejected (deleteWhere t b d) = true) :
    isRejected (buildDelete t b d) = true := by
  unfold buildDelete
  cases hw : deleteWhere t b d with
  | error e => rfl
  | ok p =>
    rw [hw, isRejected_ok] at h
    exact Bool.noConfusion h

/-- C3 (amended): for every UPDATE RowOp with businessType retail or
hospitality that the dispatcher executes, the WHERE predicate is exactly the
primary-key column set of the policy table (Sales/retail InvoiceNo,
Sales/hospitality OrderNo, SalesDetail/retail InvoiceNo+StockId,
SalesDetail/hospitality OrderNo+ItemCode, StockItems/retail StockId,
MenuItem/hospitality ItemCode, SubMenuLinkDetail/hospitality ItemCode,
PaymentReceived InvoiceNo|OrderNo + Id, Payment Payment, other tables the id
fallback), and a payload missing a required column in both plain and old_ form
is rejected with a non-retryable error; on the DELETE path the policy differs:
MenuItem and StockItems apply their single-column key regardless of business
type, and SubMenuLinkDetail is not special-cased, falling through to the id
fallback; a DELETE payload missing a required plain-form column is rejected. -/
theorem c3_where_policy (t b : String) (d : Payload)
    (hb : b = "retail" ∨ b = "hospitality") :
    (∀ stmt, buildUpdate t b d = .ok stmt → pkPolicy t b = some stmt.whereFields) ∧
    (∀ fs f, pkPolicy t b = some fs → f ∈ fs → hasKey d f = false →
      hasKey d ("old_" ++ f) = false → isRejected (buildUpdate t b d) = true) ∧
    (∀ stmt, buildDelete t b d = .ok stmt →
      deletePkPolicy t b = some stmt.whereFields) ∧
    (∀ fs f, deletePkPolicy t b = some fs → f ∈ fs → hasKey d f = false →
      isRejected (buildDelete t b d) = true) := by
  refine ⟨?_, ?_, ?_, ?_⟩
  · intro stmt h
    obtain ⟨hw, hne, _⟩ := buildUpdate_ok_inv t b d stmt h
    exact (updateWhere_ok_props t b d hb _ _ hw hne).1
  · intro fs f hp hf hm1 hm2
    exact buildUpdate_rejected t b d
      (updateWhere_missing_rejected t b d hb fs hp f hf hm1 hm2)
  · intro stmt h
    obtain ⟨hw, hne⟩ := buildDelete_ok_inv t b d stmt h
    exact (deleteWhere_ok_props t b d hb _ _ hw hne).1
  · intro fs f hp hf hm
    exact buildDelete_rejected t b d
      (deleteWhere_missing_rejected t b d hb fs hp f hf hm)

/-- Witness for `c3_where_policy`: a retail Sales UPDATE whose WHERE predicate
is exactly the policy column InvoiceNo. -/
theorem c3_where_policy_witness :
    pkPolicy "Sales" "retail" =
      some (UpdateStmt.mk "Sales" ["InvoiceNo"] [JsValue.vStr "1"] ["InvoiceNo"]
        [some (JsValue.vStr "1")]).whereFields :=
  (c3_where_policy "Sales" "retail" [("InvoiceNo", JsValue.vStr "1")]
    (Or.inl rfl)).1 _ rfl

/-- C3 counterexample: the claim says SubMenuLinkDetail/hospitality has WHERE
predicate exactly ItemCode on every dispatch path, but on the DELETE path the
code has no SubMenuLinkDetail case: with ItemCode present the operation is
rejected through the id fallback instead of deleting by ItemCode. -/
theorem c3_where_policy_counterexample :
    pkPolicy "SubMenuLinkDetail" "hospitality" = some ["ItemCode"] ∧
    hasKey [("ItemCode", JsValue.vStr "M1")] "ItemCode" = true ∧
    buildDelete "SubMenuLinkDetail" "hospitality"
      [("ItemCode", JsValue.vStr "M1")] =
      .error "No primary key found for DELETE operation on SubMenuLinkDetail" :=
  ⟨rfl, rfl, rfl⟩

/-- C2 (amended): for every UPDATE RowOp with businessType retail or
hospitality that the dispatcher executes, the SET list is the payload keys not
prefixed old_, in payload order, and each WHERE value is `old_<PKcol> ||
<PKcol>` under JS truthiness: the value of old_<PKcol> when that key is
present with a truthy value, else the value of <PKcol>; if a required PK
column is absent in both forms the operation is rejected with a non-retryable
error. -/
theorem c2_update_set_where (t b : String) (d : Payload)
    (hb : b = "retail" ∨ b = "hospitality") :
    (∀ stmt, buildUpdate t b d = .ok stmt →
      stmt.setCols =
        (d.filter (fun kv => ¬ startsWithOld kv.1)).map (fun kv => kv.1) ∧
      stmt.whereVals = stmt.whereFields.map
        (fun f => jsOr (getProp d ("old_" ++ f)) (getProp d f))) ∧
    (∀ fs f, pkPolicy t b = some fs → f ∈ fs → hasKey d f = false →
      hasKey d ("old_" ++ f) = false → isRejected (buildUpdate t b d) = true) := by
  refine ⟨?_, ?_⟩
  · intro stmt h
    obtain ⟨hw, hne, hset⟩ := buildUpdate_ok_inv t b d stmt h
    exact ⟨hset, (updateWhere_ok_props t b d hb _ _ hw hne).2⟩
  · intro fs f hp hf hm1 hm2
    exact buildUpdate_rejected t b d
      (updateWhere_missing_rejected t b d hb fs hp f hf hm1 hm2)

/-- Witness for `c2_update_set_where`: a retail Sales UPDATE carrying a truthy
pre-image value old_InvoiceNo = "9", whose WHERE value is that pre-image. -/
theorem c2_update_set_where_witness :
    (UpdateStmt.mk "Sales" ["InvoiceNo"] [JsValue.vStr "1"] ["InvoiceNo"]
        [some (JsValue.vStr "9")]).setCols =
      (([("InvoiceNo", JsValue.vStr "1"), ("old_InvoiceNo", JsValue.vStr "9")] :
        Payload).filter (fun kv => ¬ startsWithOld kv.1)).map
        (fun kv => kv.1) ∧
    (UpdateStmt.mk "Sales" ["InvoiceNo"] [JsValue.vStr "1"] ["InvoiceNo"]
        [some (JsValue.vStr "9")]).whereVals =
      (UpdateStmt.mk "Sales" ["InvoiceNo"] [JsValue.vStr "1"] ["InvoiceNo"]
        [some (JsValue.vStr "9")]).whereFields.map
        (fun f => jsOr
          (getProp [("InvoiceNo", JsValue.vStr "1"),
            ("old_InvoiceNo", JsValue.vStr "9")] ("old_" ++ f))
          (getProp [("InvoiceNo", JsValue.vStr "1"),
            ("old_InvoiceNo", JsValue.vStr "9")] f)) :=
  (c2_update_set_where "Sales" "retail"
    [("InvoiceNo", JsValue.vStr "1"), ("old_InvoiceNo", JsValue.vStr "9")]
    (Or.inl rfl)).1 _ rfl

/-- C2 counterexample: the claim says the WHERE value is taken from old_<PKcol>
whenever that key is present in the payload, but with old_InvoiceNo present
and equal to the empty string (falsy) the code falls back to InvoiceNo: the
built WHERE value is "A", not the present old_InvoiceNo value "". -/
theorem c2_update_set_where_counterexample :
    hasKey [("InvoiceNo", JsValue.vStr "A"), ("old_InvoiceNo", JsValue.vStr "")]
      "old_InvoiceNo" = true ∧
    specWhereValue
      [("InvoiceNo", JsValue.vStr "A"), ("old_InvoiceNo", JsValue.vStr "")]
      "InvoiceNo" = some (JsValue.vStr "") ∧
    buildUpdate "Sales" "retail"
      [("InvoiceNo", JsValue.vStr "A"), ("old_InvoiceNo", JsValue.vStr "")] =
      .ok (UpdateStmt.mk "Sales" ["InvoiceNo"] [JsValue.vStr "A"] ["InvoiceNo"]
        [some (JsValue.vStr "A")]) ∧
    some (JsValue.vStr "A") ≠ some (JsValue.vStr "") := by
  refine ⟨rfl, rfl, rfl, by decide⟩



/-- A row of the tenant table `stores` read by the license service
(src/unnamed/part_002). -/
structure StoreRow where
  storeId : String
  appId : String
  licenseExpireMs : Int
  storeName : String
deriving DecidableEq, Repr

/-- The result of `validateAdvancedReportLicense`. -/
structure LicenseResult where
  isValid : Bool
  isExpired : Bool
  errMsg : Option String
  daysRemaining : Option Nat
deriving DecidableEq, Repr

/-- `Math.ceil (d / b)` for a natural dividend and positive divisor. -/
def ceilDivPos (d b : Nat) : Nat := (d + b - 1) / b

/-- Milliseconds per day, the divisor `1000 * 60 * 60 * 24` in the source. -/
def msPerDay : Nat := 86400000

/-- `validateAdvancedReportLicense` (src/unnamed/part_002, lines 60-124): select
the rows of the tenant table matching both StoreId and AdvancedReportAppId; no
row means invalid and expired with the store-not-found error; otherwise the
first row decides `isExpired = expireDate <= currentDate`,
`isValid = !isExpired`, and `daysRemaining = isExpired ? 0 :
Math.ceil((expireDate - currentDate) / (1000*60*60*24))`. -/
def validateAdvancedReportLicense (tbl : List StoreRow) (storeId appId : String)
    (nowMs : Int) : LicenseResult :=
  match tbl.filter (fun r => r.storeId = storeId ∧ r.appId = appId) with
  | [] =>
    { isValid := false, isExpired := true,
      errMsg := some "Store not found or invalid AppId", daysRemaining := none }
  | r :: _ =>
    { isValid := ! decide (r.licenseExpireMs ≤ nowMs),
      isExpired := decide (r.licenseExpireMs ≤ nowMs),
      errMsg := none,
      daysRemaining := some (if r.licenseExpireMs ≤ nowMs then 0
        else ceilDivPos (r.licenseExpireMs - nowMs).toNat msPerDay) }

/-- C6: validate(storeId, appId): with no tenant row matching both ids the
result is valid=false, expired=true with the store-not-found error; with a
matching row, expired = (licenseExpire <= now) against wall-clock now, valid
holds exactly when not expired, and daysRemaining is 0 when expired and
otherwise the ceiling of (licenseExpire - now) / 1 day: the least k with
licenseExpire - now <= k days. -/
theorem c6_validate_license (tbl : List StoreRow) (storeId appId : String)
    (nowMs : Int) :
    (tbl.filter (fun r => r.storeId = storeId ∧ r.appId = appId) = [] →
      validateAdvancedReportLicense tbl storeId appId nowMs =
        { isValid := false, isExpired := true,
          errMsg := some "Store not found or invalid AppId",
          daysRemaining := none }) ∧
    (∀ r rest,
      tbl.filter (fun r => r.storeId = storeId ∧ r.appId = appId) = r :: rest →
      (validateAdvancedReportLicense tbl storeId appId nowMs).isExpired =
        decide (r.licenseExpireMs ≤ nowMs) ∧
      (validateAdvancedReportLicense tbl storeId appId nowMs).isValid =
        ! (validateAdvancedReportLicense tbl storeId appId nowMs).isExpired ∧
      (r.licenseExpireMs ≤ nowMs →
        (validateAdvancedReportLicense tbl storeId appId nowMs).daysRemaining =
          some 0) ∧
      (nowMs < r.licenseExpireMs →
        ∃ k, (validateAdvancedReportLicense tbl storeId appId
            nowMs).daysRemaining = some k ∧
          r.licenseExpireMs - nowMs ≤ (k : Int) * (msPerDay : Int) ∧
          ∀ j : Nat, r.licenseExpireMs - nowMs ≤ (j : Int) * (msPerDay : Int) →
            k ≤ j)) := by
  constructor
  · intro hfilter
    unfold validateAdvancedReportLicense
    rw [hfilter]
  · intro r rest hfilter
    have hred : validateAdvancedReportLicense tbl storeId appId nowMs =
        { isValid := ! decide (r.licenseExpireMs ≤ nowMs),
          isExpired := decide (r.licenseExpireMs ≤ nowMs),
          errMsg := none,
          daysRemaining := some (if r.licenseExpireMs ≤ nowMs then 0
            else ceilDivPos (r.licenseExpireMs - nowMs).toNat msPerDay) } := by
      unfold validateAdvancedReportLicense
      rw [hfilter]
    refine ⟨by rw [hred], by rw [hred], ?_, ?_⟩
    · intro hle
      rw [hred]
      simp [hle]
    · intro hlt
      rw [hred]
      have hnle : ¬ r.licenseExpireMs ≤ nowMs := not_le.mpr hlt
      simp only [hnle, if_false]
      refine ⟨ceilDivPos (r.licenseExpireMs - nowMs).toNat msPerDay, rfl, ?_, ?_⟩
      · have hdiv := Nat.div_add_mod
          ((r.licenseExpireMs - nowMs).toNat + msPerDay - 1) msPerDay
        have hmod : ((r.licenseExpireMs - nowMs).toNat + msPerDay - 1) %
            msPerDay < msPerDay := Nat.mod_lt _ (by norm_num [msPerDay])
        unfold ceilDivPos msPerDay at *
        omega
      · intro j hj
        have hdiv := Nat.div_add_mod
          ((r.licenseExpireMs - nowMs).toNat + msPerDay - 1) msPerDay
        have hmod : ((r.licenseExpireMs - nowMs).toNat + msPerDay - 1) %
            msPerDay < msPerDay := Nat.mod_lt _ (by norm_num [msPerDay])
        unfold ceilDivPos msPerDay at *
        omega

/-- Witness for `c6_validate_license`: the E1 tenant row with an expired
license (expiry 2020-01-01, clock 2023-11-14): the unmatched pair is reported
store-not-found, and the matching expired pair gives daysRemaining 0. -/
theorem c6_validate_license_witness :
    validateAdvancedReportLicense
        [StoreRow.mk "239" "A" 1577836800000 "S"] "239" "B" 1700000000000 =
      { isValid := false, isExpired := true,
        errMsg := some "Store not found or invalid AppId",
        daysRemaining := none } ∧
    (validateAdvancedReportLicense
        [StoreRow.mk "239" "A" 1577836800000 "S"] "239" "A"
        1700000000000).daysRemaining = some 0 := by
  constructor
  · exact (c6_validate_license
      [StoreRow.mk "239" "A" 1577836800000 "S"] "239" "B" 1700000000000).1
      (by decide)
  · exact ((c6_validate_license
      [StoreRow.mk "239" "A" 1577836800000 "S"] "239" "A" 1700000000000).2
      (StoreRow.mk "239" "A" 1577836800000 "S") [] (by decide)).2.2.1 (by decide)

/-- An action the identify handler performs towards the peer. -/
inductive IdentifyAction where
  | emitEvent (name : String) (code : Option Nat)
  | disconnectNow
  | disconnectAfterMs (ms : Nat)
deriving DecidableEq, Repr

/-- JS truthiness of a possibly-absent string (undefined and "" are falsy). -/
def strTruthy : Option String → Bool
  | none => false
  | some s => s ≠ ""

/-- socket.on('identify') (src/app.js 635-705): for serviceType
advanced_online_report, missing storeId or appId emits license_error{400} and
disconnects immediately; an invalid or expired license emits
license_expired{410} and disconnects after a 1000 ms setTimeout; otherwise the
session is bound and identified is emitted. Other service types bind and emit
identified directly. -/
def identifyActions (storeId appId : Option String) (serviceType : String)
    (license : LicenseResult) : List IdentifyAction :=
  if serviceType = "advanced_online_report" then
    if ¬ strTruthy storeId ∨ ¬ strTruthy appId then
      [.emitEvent "license_error" (some 400), .disconnectNow]
    else if ¬ license.isValid ∨ license.isExpired then
      [.emitEvent "license_expired" (some 410), .disconnectAfterMs 1000]
    else [.emitEvent "identified" none]
  else [.emitEvent "identified" none]

/-- The action closes the connection only after a positive grace delay. -/
def closesAfterGrace : IdentifyAction → Bool
  | .disconnectAfterMs ms => decide (0 < ms)
  | _ => false

/-- C7 (amended): an advanced_online_report identify with an expired or
invalid license emits license_expired{code:410} and disconnects only after a
1000 ms grace (within ~1s); but an identify missing storeId or appId emits
license_error{code:400} and then disconnects immediately, with no grace
delay. -/
theorem c7_identify_failure_actions (storeId appId : Option String)
    (license : LicenseResult) :
    ((¬ strTruthy storeId = true ∨ ¬ strTruthy appId = true) →
      identifyActions storeId appId "advanced_online_report" license =
        [.emitEvent "license_error" (some 400), .disconnectNow] ∧
      closesAfterGrace IdentifyAction.disconnectNow = false) ∧
    (strTruthy storeId = true → strTruthy appId = true →
      (¬ license.isValid = true ∨ license.isExpired = true) →
      identifyActions storeId appId "advanced_online_report" license =
        [.emitEvent "license_expired" (some 410), .disconnectAfterMs 1000] ∧
      closesAfterGrace (IdentifyAction.disconnectAfterMs 1000) = true ∧
      1000 ≤ 1000) := by
  constructor
  · intro h
    constructor
    · unfold identifyActions
      rw [if_pos rfl, if_pos h]
    · rfl
  · intro hs ha hl
    constructor
    · unfold identifyActions
      rw [if_pos rfl, if_neg (by simp [hs, ha]), if_pos hl]
    · exact ⟨rfl, le_refl 1000⟩

/-- Witness for `c7_identify_failure_actions`: a session with no storeId gets
license_error{400} and an immediate disconnect; an expired license gets
license_expired{410} and a 1000 ms grace. -/
theorem c7_identify_failure_actions_witness :
    (identifyActions none (some "A") "advanced_online_report"
        (LicenseResult.mk false true none none) =
      [.emitEvent "license_error" (some 400), .disconnectNow] ∧
      closesAfterGrace IdentifyAction.disconnectNow = false) ∧
    (identifyActions (some "239") (some "A") "advanced_online_report"
        (LicenseResult.mk false true none (some 0)) =
      [.emitEvent "license_expired" (some 410), .disconnectAfterMs 1000] ∧
      closesAfterGrace (IdentifyAction.disconnectAfterMs 1000) = true ∧
      1000 ≤ 1000) := by
  constructor
  · exact (c7_identify_failure_actions none (some "A")
      (LicenseResult.mk false true none none)).1 (by decide)
  · exact (c7_identify_failure_actions (some "239") (some "A")
      (LicenseResult.mk false true none (some 0))).2 (by decide) (by decide)
      (by decide)

/-- C7 counterexample: the claim says every license-gate failure closes only
after a short grace so the peer can observe the reason, but the
missing-credentials path calls socket.disconnect(true) synchronously right
after the emit: the closing action is an immediate disconnect, not a delayed
one. -/
theorem c7_identify_counterexample :
    identifyActions none (some "A") "advanced_online_report"
        (LicenseResult.mk false true none none) =
      [.emitEvent "license_error" (some 400), .disconnectNow] ∧
    closesAfterGrace IdentifyAction.disconnectNow = false ∧
    closesAfterGrace (IdentifyAction.disconnectAfterMs 1000) = true := by
  refine ⟨rfl, rfl, rfl⟩



/-- Per-socket session state bound by the identify handler (socket.storeId,
socket.appId in src/app.js). -/
structure Session where
  storeId : Option String
  appId : Option String
deriving DecidableEq, Repr

/-- Server-to-peer events emitted by the socket handlers of src/app.js. -/
inductive ServerEvent where
  | identified
  | licenseExpired
  | licenseError
  | identificationError
  | syncResponse (success : Bool)
  | requestTableSchema
  | batchSyncResponse
  | pong
  | ddlSyncSuccess (skipped : Bool)
  | ddlSyncError
  | tableSchemaError
  | requestFullDataSync
  | tableCreated (success : Bool)
  | fullDataSyncError
  | fullDataSyncProgress
  | fullDataSyncComplete (success : Bool)
  | initialSyncError
  | initialSyncProgress
  | initialSyncComplete (success : Bool)
  | verifyAndSyncError
  | verifyAndSyncResponse
  | csvBulkSyncRequest
  | tableCreationError
  | forceSyncError
  | forceSyncResponse (success : Bool)
  | clearDatabaseResponse (success : Bool)
  | csvBulkUploadResponse (success : Bool)
  | csvBulkImportProgress
  | csvFileImportComplete (success : Bool)
deriving DecidableEq, Repr

/-- Error variants among the server events: dedicated *_error events and
responses carrying success:false. -/
def ServerEvent.isErrorVariant : ServerEvent → Bool
  | .licenseExpired => true
  | .licenseError => true
  | .identificationError => true
  | .ddlSyncError => true
  | .tableSchemaError => true
  | .fullDataSyncError => true
  | .initialSyncError => true
  | .verifyAndSyncError => true
  | .tableCreationError => true
  | .forceSyncError => true
  | .syncResponse ok => ! ok
  | .tableCreated ok => ! ok
  | .fullDataSyncComplete ok => ! ok
  | .initialSyncComplete ok => ! ok
  | .forceSyncResponse ok => ! ok
  | .clearDatabaseResponse ok => ! ok
  | .csvBulkUploadResponse ok => ! ok
  | .csvFileImportComplete ok => ! ok
  | _ => false

/-- The events the claim allows towards a session that has not completed
identification: identified, an error variant, or pong. -/
def allowedUnidentified (e : ServerEvent) : Bool :=
  e = ServerEvent.identified || e.isErrorVariant || e = ServerEvent.pong

/-- The session has bound truthy storeId and appId (the handlers guard with
`if (!socket.storeId || !socket.appId)`). -/
def sessionIdentified (s : Session) : Bool :=
  strTruthy s.storeId && strTruthy s.appId

/-- Outcome of the legacy syncService.processSyncData call as observed by the
sync_data handler: a success result, a failure result, or a thrown
TABLE_NOT_EXISTS error. -/
inductive LegacyOutcome where
  | succeeded
  | failed
  | tableMissing
deriving DecidableEq, Repr

/-- socket.on('sync_data') (src/app.js 708-780). The handler never reads
socket.storeId or socket.appId: it branches on data.appId && data.storeId
(truthiness); the advanced path emits sync_response with the
processAdvancedSyncData success flag, the legacy path emits sync_response or,
for a thrown TABLE_NOT_EXISTS, request_table_schema. -/
def syncDataEmits (s : Session) (dataAppId dataStoreId : Option String)
    (advOk : Bool) (legacy : LegacyOutcome) : List ServerEvent :=
  if strTruthy dataAppId ∧ strTruthy dataStoreId then
    if advOk then [.syncResponse true] else [.syncResponse false]
  else
    match legacy with
    | .succeeded => [.syncResponse true]
    | .failed => [.syncResponse false]
    | .tableMissing => [.requestTableSchema]

/-- socket.on('batch_sync') (src/app.js 931-958): no identification guard;
both the success and the catch branch emit batch_sync_response. -/
def batchSyncEmits (s : Session) : List ServerEvent :=
  [.batchSyncResponse]

/-- socket.on('ping') (src/app.js 961-963). -/
def pingEmits (s : Session) : List ServerEvent :=
  [.pong]

/-- socket.on('sync_ddl_operation') (src/app.js 966-1020): no identification
guard; `gdb` is the getDatabaseByStoreAndApp result for the payload ids,
`conv` the DDL translation (none means skipped), `execOk` the DDL execution
outcome. -/
def ddlOperationEmits (s : Session) (gdb : Option String) (conv : Option String)
    (execOk : Bool) : List ServerEvent :=
  match gdb with
  | none => [.ddlSyncError]
  | some _ =>
    match conv with
    | none => [.ddlSyncSuccess true]
    | some _ => if execOk then [.ddlSyncSuccess false] else [.ddlSyncError]

/-- socket.on('csv_bulk_upload') (src/app.js 1583-1672): no identification
guard; a failed upload emits csv_bulk_upload_response{success:false}, a
successful one emits csv_bulk_upload_response{success:true} and then
csv_file_import_complete with the import outcome. -/
def csvBulkUploadEmits (s : Session) (uploadOk importOk : Bool) :
    List ServerEvent :=
  if ¬ uploadOk then [.csvBulkUploadResponse false]
  else [.csvBulkUploadResponse true, .csvFileImportComplete importOk]

/-- socket.on('table_schema_response') (src/app.js 783-828): identification
guard, then database resolution, then table creation. -/
def tableSchemaResponseEmits (s : Session) (gdb : Option String)
    (createOk : Bool) : List ServerEvent :=
  if ¬ strTruthy s.storeId ∨ ¬ strTruthy s.appId then [.tableSchemaError]
  else
    match gdb with
    | none => [.tableSchemaError]
    | some _ => if createOk then [.requestFullDataSync] else [.tableCreated false]

/-- socket.on('full_data_sync_response') (src/app.js 831-928). -/
def fullDataSyncResponseEmits (s : Session) (gdb : Option String)
    (isLastBatch : Bool) : List ServerEvent :=
  if ¬ strTruthy s.storeId ∨ ¬ strTruthy s.appId then [.fullDataSyncError]
  else
    match gdb with
    | none => [.fullDataSyncError]
    | some _ =>
      [.fullDataSyncProgress] ++
        (if isLastBatch then [.fullDataSyncComplete true, .syncResponse true]
         else [])

/-- socket.on('initial_sync_data_response') (src/app.js 1193-1278). -/
def initialSyncDataResponseEmits (s : Session) (gdb : Option String)
    (isLastBatch : Bool) : List ServerEvent :=
  if ¬ strTruthy s.storeId ∨ ¬ strTruthy s.appId then [.initialSyncError]
  else
    match gdb with
    | none => [.initialSyncError]
    | some _ =>
      [.initialSyncProgress] ++
        (if isLastBatch then [.initialSyncComplete true] else [])

/-- socket.on('verify_and_sync_table') (src/app.js 1035-1117). -/
def verifyAndSyncTableEmits (s : Session) (gdb : Option String)
    (tblExists : Bool) (rowCount : Nat) : List ServerEvent :=
  if ¬ strTruthy s.storeId ∨ ¬ strTruthy s.appId then [.verifyAndSyncError]
  else
    match gdb with
    | none => [.verifyAndSyncError]
    | some _ =>
      [.verifyAndSyncResponse] ++
        (if tblExists ∧ rowCount = 0 then [.csvBulkSyncRequest] else [])

/-- socket.on('create_table_from_schema') (src/app.js 1120-1190). -/
def createTableFromSchemaEmits (s : Session) (gdb : Option String)
    (createOk isInitialSync : Bool) : List ServerEvent :=
  if ¬ strTruthy s.storeId ∨ ¬ strTruthy s.appId then [.tableCreationError]
  else
    match gdb with
    | none => [.tableCreationError]
    | some _ =>
      if createOk then
        [.tableCreated true] ++ (if isInitialSync then [.csvBulkSyncRequest] else [])
      else [.tableCreated false]

/-- socket.on('force_sync_request') (src/app.js 1281-1346); `dropOk` is the
outcome of the drop loop (which references an unbound machineName in its log
statements). -/
def forceSyncRequestEmits (s : Session) (gdb : Option String) (action : String)
    (dropOk : Bool) : List ServerEvent :=
  if ¬ strTruthy s.storeId ∨ ¬ strTruthy s.appId then [.forceSyncError]
  else if action = "drop_all_tables" then
    match gdb with
    | none => [.forceSyncError]
    | some _ => [.forceSyncResponse dropOk]
  else [.forceSyncResponse false]

/-- socket.on('clear_database_tables') (src/app.js 1494-1580). -/
def clearDatabaseTablesEmits (s : Session) (gdb : Option String)
    (clearOk : Bool) : List ServerEvent :=
  if ¬ strTruthy s.storeId ∨ ¬ strTruthy s.appId then
    [.clearDatabaseResponse false]
  else
    match gdb with
    | none => [.clearDatabaseResponse false]
    | some _ => [.clearDatabaseResponse clearOk]

/-- C1 (amended): until storeId and appId are bound on the session, the
handlers for table_schema_response, full_data_sync_response,
initial_sync_data_response, verify_and_sync_table, create_table_from_schema,
force_sync_request and clear_database_tables reject the event, emitting
exactly their error event (an error variant); but the sync_data, batch_sync,
sync_ddl_operation and csv_bulk_upload handlers have no identification guard:
their emissions do not depend on the session identification at all, and an
unidentified session that sends sync_data with payload appId/storeId receives
a normal sync_response. -/
theorem c1_identification_guards (s s2 : Session)
    (h : ¬ strTruthy s.storeId = true ∨ ¬ strTruthy s.appId = true)
    (gdb : Option String) (createOk isLast tblExists isInit dropOk clearOk
      uploadOk importOk advOk execOk : Bool) (rowCount : Nat) (action : String)
    (conv : Option String) (dataAppId dataStoreId : Option String)
    (legacy : LegacyOutcome) :
    (tableSchemaResponseEmits s gdb createOk = [.tableSchemaError] ∧
      ServerEvent.isErrorVariant .tableSchemaError = true) ∧
    (fullDataSyncResponseEmits s gdb isLast = [.fullDataSyncError] ∧
      ServerEvent.isErrorVariant .fullDataSyncError = true) ∧
    (initialSyncDataResponseEmits s gdb isLast = [.initialSyncError] ∧
      ServerEvent.isErrorVariant .initialSyncError = true) ∧
    (verifyAndSyncTableEmits s gdb tblExists rowCount = [.verifyAndSyncError] ∧
      ServerEvent.isErrorVariant .verifyAndSyncError = true) ∧
    (createTableFromSchemaEmits s gdb createOk isInit = [.tableCreationError] ∧
      ServerEvent.isErrorVariant .tableCreationError = true) ∧
    (forceSyncRequestEmits s gdb action dropOk = [.forceSyncError] ∧
      ServerEvent.isErrorVariant .forceSyncError = true) ∧
    (clearDatabaseTablesEmits s gdb clearOk = [.clearDatabaseResponse false] ∧
      ServerEvent.isErrorVariant (.clearDatabaseResponse false) = true) ∧
    syncDataEmits s dataAppId dataStoreId advOk legacy =
      syncDataEmits s2 dataAppId dataStoreId advOk legacy ∧
    batchSyncEmits s = batchSyncEmits s2 ∧
    ddlOperationEmits s gdb conv execOk = ddlOperationEmits s2 gdb conv execOk ∧
    csvBulkUploadEmits s uploadOk importOk =
      csvBulkUploadEmits s2 uploadOk importOk := by
  refine ⟨⟨?_, rfl⟩, ⟨?_, rfl⟩, ⟨?_, rfl⟩, ⟨?_, rfl⟩, ⟨?_, rfl⟩, ⟨?_, rfl⟩,
    ⟨?_, rfl⟩, rfl, rfl, rfl, rfl⟩
  · unfold tableSchemaResponseEmits
    rw [if_pos h]
  · unfold fullDataSyncResponseEmits
    rw [if_pos h]
  · unfold initialSyncDataResponseEmits
    rw [if_pos h]
  · unfold verifyAndSyncTableEmits
    rw [if_pos h]
  · unfold createTableFromSchemaEmits
    rw [if_pos h]
  · unfold forceSyncRequestEmits
    rw [if_pos h]
  · unfold clearDatabaseTablesEmits
    rw [if_pos h]

/-- Witness for `c1_identification_guards` at a fresh unidentified session. -/
theorem c1_identification_guards_witness :
    tableSchemaResponseEmits (Session.mk none none) (some "A") true =
      [.tableSchemaError] ∧
    clearDatabaseTablesEmits (Session.mk none none) (some "A") true =
      [.clearDatabaseResponse false] :=
  ⟨((c1_identification_guards (Session.mk none none) (Session.mk none none)
      (Or.inl (by decide)) (some "A") true true true true true true true true
      true true 0 "drop_all_tables" none none none .succeeded).1).1,
   ((c1_identification_guards (Session.mk none none) (Session.mk none none)
      (Or.inl (by decide)) (some "A") true true true true true true true true
      true true 0 "drop_all_tables" none none none .succeeded).2.2.2.2.2.2.1).1⟩

/-- C1 counterexample: an unidentified session (no storeId or appId bound)
that sends sync_data with payload appId and storeId is served the advanced
path and receives a successful sync_response, an event that is neither
identified, an error variant, nor pong — the sync_data entry point does not
reject events before identification. -/
theorem c1_identification_counterexample :
    sessionIdentified (Session.mk none none) = false ∧
    syncDataEmits (Session.mk none none) (some "A") (some "239") true
      LegacyOutcome.succeeded = [.syncResponse true] ∧
    allowedUnidentified (ServerEvent.syncResponse true) = false := by
  refine ⟨rfl, rfl, rfl⟩



/-- Remove leading and trailing whitespace from a character list (the effect
of SQL TRIM / JS trim on the values handled here). -/
def trimChars (l : List Char) : List Char :=
  ((l.dropWhile Char.isWhitespace).reverse.dropWhile Char.isWhitespace).reverse

/-- Branches of the per-column CASE coercion expression generated by
`buildColumnMappings` (src/services/syncService.js 1560-1592), in source
order. -/
inductive CoercionBranch where
  | nullBlank
  | boolWords
  | sentinelDate
  | isoDatetime
  | stdDatetime
  | dateOnly
  | castInt
  | castDecimal
  | trimText
deriving DecidableEq, Repr

/-- The protected-column check (src/services/syncService.js 1557). -/
def isProtectedColumn (tableCol : String) : Bool :=
  tableCol = "StockId" || tableCol = "ItemCode"

/-- The branch list of the CASE expression generated for one table column:
the boolean-word branch and the integer/decimal CAST branches are emitted only
for non-protected columns (src/services/syncService.js 1560-1592). -/
def caseBranches (tableCol : String) : List CoercionBranch :=
  [CoercionBranch.nullBlank] ++
  (if isProtectedColumn tableCol then [] else [CoercionBranch.boolWords]) ++
  [CoercionBranch.sentinelDate, CoercionBranch.isoDatetime,
   CoercionBranch.stdDatetime, CoercionBranch.dateOnly] ++
  (if isProtectedColumn tableCol then []
   else [CoercionBranch.castInt, CoercionBranch.castDecimal]) ++
  [CoercionBranch.trimText]

/-- `@` + the CSV header with every non-alphanumeric character replaced by
`_` (src/services/syncService.js 1548). -/
def sanitizeCsvVar (c : String) : String :=
  String.mk ('@' :: c.data.map (fun ch => if ch.isAlphanum then ch else '_'))

/-- The column mappings for LOAD DATA INFILE: one user variable per CSV
header, and for each table column paired positionally with a CSV column, a
SET statement whose coercion CASE is `caseBranches`
(src/services/syncService.js 1542-1600). -/
structure ColumnMappings where
  csvColumns : List String
  setStatements : List (String × List CoercionBranch)
deriving DecidableEq, Repr

/-- `buildColumnMappings(csvHeaders, tableColumns)`. -/
def buildColumnMappings (csvHeaders tableColumns : List String) :
    ColumnMappings :=
  { csvColumns := csvHeaders.map sanitizeCsvVar,
    setStatements :=
      (tableColumns.enum.filter (fun p => p.1 < csvHeaders.length)).map
        (fun p => (p.2, caseBranches p.2)) }

/-- The SQL value a coercion branch produces for the bound variable. -/
inductive SqlVal where
  | vNull
  | vInt (n : Int)
  | vDec (s : String)
  | vDate (s : String)
  | vText (s : String)
deriving DecidableEq, Repr

/-- Parse a digit run as a natural number. -/
def digitsToNat (l : List Char) : Nat :=
  l.foldl (fun acc c => acc * 10 + (c.toNat - 48)) 0

/-- The integer denoted by a string matching `^-?[0-9]+$` (CAST AS SIGNED). -/
def strToIntLit (l : List Char) : Int :=
  match l with
  | '-' :: rest => - (digitsToNat rest : Int)
  | _ => (digitsToNat l : Int)

/-- Consume exactly `n` digits. -/
def matchDigits : Nat → List Char → Option (List Char)
  | 0, l => some l
  | _ + 1, [] => none
  | n + 1, c :: rest => if c.isDigit then matchDigits n rest else none

/-- Consume one literal character. -/
def matchLit (c : Char) : List Char → Option (List Char)
  | [] => none
  | c2 :: rest => if c2 = c then some rest else none

/-- `^[0-9]{4}-[0-9]{2}-[0-9]{2}T[0-9]{2}:[0-9]{2}:[0-9]{2}` (prefix). -/
def isoDatetimePrefix (l : List Char) : Bool :=
  (do
    let l ← matchDigits 4 l
    let l ← matchLit (Char.ofNat 45) l
    let l ← matchDigits 2 l
    let l ← matchLit (Char.ofNat 45) l
    let l ← matchDigits 2 l
    let l ← matchLit (Char.ofNat 84) l
    let l ← matchDigits 2 l
    let l ← matchLit (Char.ofNat 58) l
    let l ← matchDigits 2 l
    let l ← matchLit (Char.ofNat 58) l
    let _ ← matchDigits 2 l
    pure ()).isSome

/-- `^[0-9]{4}-[0-9]{2}-[0-9]{2} [0-9]{2}:[0-9]{2}:[0-9]{2}` (prefix). -/
def stdDatetimePrefix (l : List Char) : Bool :=
  (do
    let l ← matchDigits 4 l
    let l ← matchLit (Char.ofNat 45) l
    let l ← matchDigits 2 l
    let l ← matchLit (Char.ofNat 45) l
    let l ← matchDigits 2 l
    let l ← matchLit (Char.ofNat 32) l
    let l ← matchDigits 2 l
    let l ← matchLit (Char.ofNat 58) l
    let l ← matchDigits 2 l
    let l ← matchLit (Char.ofNat 58) l
    let _ ← matchDigits 2 l
    pure ()).isSome

/-- `^[0-9]{4}-[0-9]{2}-[0-9]{2}$` (anchored). -/
def dateOnlyExact (l : List Char) : Bool :=
  match (do
    let l ← matchDigits 4 l
    let l ← matchLit (Char.ofNat 45) l
    let l ← matchDigits 2 l
    let l ← matchLit (Char.ofNat 45) l
    matchDigits 2 l) with
  | some [] => true
  | _ => false

/-- `^-?[0-9]+$`. -/
def intExact (l : List Char) : Bool :=
  match l with
  | '-' :: rest => ! rest.isEmpty && rest.all Char.isDigit
  | _ => ! l.isEmpty && l.all Char.isDigit

/-- `^-?[0-9]+\.[0-9]+$`. -/
def decExact (l : List Char) : Bool :=
  let core := fun (l2 : List Char) =>
    let intPart := l2.takeWhile Char.isDigit
    let rest := l2.drop intPart.length
    match rest with
    | '.' :: frac => ! intPart.isEmpty && ! frac.isEmpty && frac.all Char.isDigit
    | _ => false
  match l with
  | '-' :: rest => core rest
  | _ => core l

/-- The boolean words recognised by the boolean branch. -/
def boolWordsList : List String :=
  ["true", "false", "yes", "no", "y", "n", "on", "off"]

/-- The boolean words coerced to 1. -/
def boolTrueList : List String := ["true", "yes", "y", "on"]

/-- The value one WHEN branch produces for the variable value `v`, or `none`
when the branch does not match (SQL comparisons with NULL never match; the
final ELSE TRIM of NULL is NULL). -/
def branchEval : CoercionBranch → Option String → Option SqlVal
  | .nullBlank, none => some SqlVal.vNull
  | .nullBlank, some s =>
    if trimChars s.data = [] then some SqlVal.vNull else none
  | .trimText, none => some SqlVal.vNull
  | .trimText, some s => some (SqlVal.vText (String.mk (trimChars s.data)))
  | _, none => none
  | .boolWords, some s =>
    if boolWordsList.contains (String.mk ((trimChars s.data).map Char.toLower))
    then some (if boolTrueList.contains
        (String.mk ((trimChars s.data).map Char.toLower))
      then SqlVal.vInt 1 else SqlVal.vInt 0)
    else none
  | .sentinelDate, some s =>
    if "1899-12-30".data.isPrefixOf s.data ∨
        s = "1900-01-01T00:00:00.000Z" ∨ s = "0000-00-00"
    then some SqlVal.vNull else none
  | .isoDatetime, some s =>
    if isoDatetimePrefix s.data
    then some (SqlVal.vDate (String.mk (s.data.take 19))) else none
  | .stdDatetime, some s =>
    if stdDatetimePrefix s.data then some (SqlVal.vDate s) else none
  | .dateOnly, some s =>
    if dateOnlyExact s.data then some (SqlVal.vDate s) else none
  | .castInt, some s =>
    if intExact s.data then some (SqlVal.vInt (strToIntLit s.data)) else none
  | .castDecimal, some s =>
    if decExact s.data then some (SqlVal.vDec s) else none

/-- CASE evaluation: the first matching WHEN wins; a CASE with no matching
branch is NULL. -/
def evalBranches : List CoercionBranch → Option String → SqlVal
  | [], _ => SqlVal.vNull
  | b :: rest, v =>
    match branchEval b v with
    | some r => r
    | none => evalBranches rest v

/-- C9: every SET statement generated for a table column carries the CASE of
`caseBranches`; for the protected columns StockId and ItemCode that CASE
omits the boolean-word branch and the integer/decimal CAST branches while
keeping the null/blank, sentinel-date, datetime and text branches, so the
value "007" is stored as the literal text "007"; non-protected columns carry
all branches, and "007" is cast to the number 7. -/
theorem c9_protected_columns (csvHeaders tableColumns : List String)
    (col : String) (bs : List CoercionBranch)
    (hmem : (col, bs) ∈
      (buildColumnMappings csvHeaders tableColumns).setStatements) :
    bs = caseBranches col ∧
    (isProtectedColumn col = true →
      bs = [CoercionBranch.nullBlank, CoercionBranch.sentinelDate,
        CoercionBranch.isoDatetime, CoercionBranch.stdDatetime,
        CoercionBranch.dateOnly, CoercionBranch.trimText] ∧
      evalBranches bs (some "007") = SqlVal.vText "007") ∧
    (isProtectedColumn col = false →
      bs = [CoercionBranch.nullBlank, CoercionBranch.boolWords,
        CoercionBranch.sentinelDate, CoercionBranch.isoDatetime,
        CoercionBranch.stdDatetime, CoercionBranch.dateOnly,
        CoercionBranch.castInt, CoercionBranch.castDecimal,
        CoercionBranch.trimText] ∧
      evalBranches bs (some "007") = SqlVal.vInt 7) := by
  have hbs : bs = caseBranches col := by
    simp only [buildColumnMappings, List.mem_map] at hmem
    obtain ⟨p, _, hpe⟩ := hmem
    injection hpe with h1 h2
    rw [← h2, ← h1]
  refine ⟨hbs, ?_, ?_⟩
  · intro hprot
    have hlist : bs = [CoercionBranch.nullBlank, CoercionBranch.sentinelDate,
        CoercionBranch.isoDatetime, CoercionBranch.stdDatetime,
        CoercionBranch.dateOnly, CoercionBranch.trimText] := by
      rw [hbs]
      unfold caseBranches
      rw [hprot]
      rfl
    refine ⟨hlist, ?_⟩
    rw [hlist]
    rfl
  · intro hprot
    have hlist : bs = [CoercionBranch.nullBlank, CoercionBranch.boolWords,
        CoercionBranch.sentinelDate, CoercionBranch.isoDatetime,
        CoercionBranch.stdDatetime, CoercionBranch.dateOnly,
        CoercionBranch.castInt, CoercionBranch.castDecimal,
        CoercionBranch.trimText] := by
      rw [hbs]
      unfold caseBranches
      rw [hprot]
      rfl
    refine ⟨hlist, ?_⟩
    rw [hlist]
    rfl

/-- Witness for `c9_protected_columns`: on a StockItems CSV import the
StockId column keeps "007" as text, while a Qty column casts it to 7. -/
theorem c9_protected_columns_witness :
    evalBranches (caseBranches "StockId") (some "007") = SqlVal.vText "007" ∧
    evalBranches (caseBranches "Qty") (some "007") = SqlVal.vInt 7 := by
  constructor
  · exact ((c9_protected_columns ["StockId"] ["StockId"] "StockId"
      (caseBranches "StockId") (by decide)).2.1 (by decide)).2
  · exact ((c9_protected_columns ["Qty"] ["Qty"] "Qty"
      (caseBranches "Qty") (by decide)).2.2 (by decide)).2



/-- The decoded bytes of one uploaded chunk
(Buffer.from(chunkContent, 'base64')). -/
abbrev Chunk := List Nat

/-- JS Map.set on the chunk store: replace the entry in place or append. -/
def jsMapSet : List (Nat × Chunk) → Nat → Chunk → List (Nat × Chunk)
  | [], k, v => [(k, v)]
  | kv :: rest, k, v =>
    if kv.1 = k then (k, v) :: rest else kv :: jsMapSet rest k v

/-- JS Map.get on the chunk store. -/
def jsMapGet (m : List (Nat × Chunk)) (k : Nat) : Option Chunk :=
  (m.find? (fun kv => kv.1 = k)).map (fun kv => kv.2)

/-- JS Map.has on the chunk store. -/
def jsMapHas (m : List (Nat × Chunk)) (k : Nat) : Bool :=
  m.any (fun kv => kv.1 = k)

/-- JS Map.size on the chunk store. -/
def jsMapSize (m : List (Nat × Chunk)) : Nat := m.length

/-- The chunk store of one ChunkAccumulator after the listed
csv_bulk_upload_chunk events, each storing its chunk with
uploadInfo.chunks.set(chunkIndex, chunkContent) (src/app.js 1381). -/
def storeChunks (arrivals : List (Nat × Chunk)) : List (Nat × Chunk) :=
  arrivals.foldl (fun m ic => jsMapSet m ic.1 ic.2) []

/-- The reassembly loop (src/app.js 1398-1409): for i in 0..totalChunks-1
fetch chunk i, failing when one is missing, and concatenate the decoded
bytes in ascending index order. -/
def reassemble (m : List (Nat × Chunk)) (total : Nat) : Option (List Nat) :=
  ((List.range total).mapM (fun i => jsMapGet m i)).map List.flatten

/-- What the completion path of csv_bulk_upload_chunk does once the guard
`chunks.size === totalChunks` fires (src/app.js 1384-1489): on successful
reassembly the file bytes are written, the accumulator is deleted from
csvChunkStorage, and the import step is started; a missing chunk aborts with
the accumulator kept. -/
structure ChunkCompletion where
  fileBytes : Option (List Nat)
  accumulatorDestroyed : Bool
  importStarted : Bool
deriving DecidableEq, Repr

/-- The guard and completion step of csv_bulk_upload_chunk. -/
def onChunkComplete (m : List (Nat × Chunk)) (total : Nat) :
    Option ChunkCompletion :=
  if jsMapSize m = total then
    match reassemble m total with
    | some bytes =>
      some { fileBytes := some bytes, accumulatorDestroyed := true,
             importStarted := true }
    | none =>
      some { fileBytes := none, accumulatorDestroyed := false,
             importStarted := false }
  else none

theorem jsMapGet_set_self (m : List (Nat × Chunk)) (k : Nat) (v : Chunk) :
    jsMapGet (jsMapSet m k v) k = some v := by
  induction m with
  | nil => simp [jsMapSet, jsMapGet, List.find?]
  | cons kv rest ih =>
    by_cases h : kv.1 = k
    · rw [jsMapSet, if_pos h]
      simp [jsMapGet, List.find?]
    · rw [jsMapSet, if_neg h]
      simp only [jsMapGet, List.find?] at *
      simp [h, ih]

theorem jsMapGet_set_other (m : List (Nat × Chunk)) (k k2 : Nat) (v : Chunk)
    (hne : k2 ≠ k) : jsMapGet (jsMapSet m k v) k2 = jsMapGet m k2 := by
  have hne2 : ¬ (k = k2) := fun hc => hne hc.symm
  induction m with
  | nil =>
    simp [jsMapSet, jsMapGet, List.find?, hne2]
  | cons kv rest ih =>
    by_cases h : kv.1 = k
    · rw [jsMapSet, if_pos h]
      simp [jsMapGet, List.find?, h, hne2]
    · rw [jsMapSet, if_neg h]
      simp only [jsMapGet, List.find?] at *
      by_cases h2 : kv.1 = k2 <;> simp [h2, ih]

theorem jsMapHas_set (m : List (Nat × Chunk)) (k k2 : Nat) (v : Chunk) :
    jsMapHas (jsMapSet m k v) k2 = (decide (k2 = k) || jsMapHas m k2) := by
  induction m with
  | nil =>
    by_cases h : k2 = k <;> simp [jsMapSet, jsMapHas, h, eq_comm]
  | cons kv rest ih =>
    by_cases h : kv.1 = k
    · rw [jsMapSet, if_pos h]
      by_cases h2 : k2 = k <;> simp [jsMapHas, h, h2, eq_comm] <;> tauto
    · rw [jsMapSet, if_neg h]
      simp only [jsMapHas, List.any_cons] at *
      rw [ih]
      by_cases h2 : kv.1 = k2 <;> simp [h2] <;> tauto

theorem jsMapSize_set (m : List (Nat × Chunk)) (k : Nat) (v : Chunk) :
    jsMapSize (jsMapSet m k v) =
      if jsMapHas m k then jsMapSize m else jsMapSize m + 1 := by
  induction m with
  | nil => simp [jsMapSet, jsMapSize, jsMapHas]
  | cons kv rest ih =>
    by_cases h : kv.1 = k
    · have hh : jsMapHas (kv :: rest) k = true := by simp [jsMapHas, h]
      rw [jsMapSet, if_pos h, hh, if_pos rfl]
      rfl
    · have hh : jsMapHas (kv :: rest) k = jsMapHas rest k := by
        simp [jsMapHas, List.any_cons, h]
      rw [jsMapSet, if_neg h, hh]
      show jsMapSize (jsMapSet rest k v) + 1 = _
      rw [ih]
      by_cases h2 : jsMapHas rest k = true <;> simp [h2, jsMapSize]

theorem jsMapGet_foldSet_not_mem (arr : List (Nat × Chunk))
    (m : List (Nat × Chunk)) (k : Nat) (h : k ∉ arr.map Prod.fst) :
    jsMapGet (arr.foldl (fun m ic => jsMapSet m ic.1 ic.2) m) k =
      jsMapGet m k := by
  induction arr generalizing m with
  | nil => rfl
  | cons ic rest ih =>
    simp only [List.map_cons, List.mem_cons, not_or] at h
    rw [List.foldl_cons, ih _ h.2,
      jsMapGet_set_other _ _ _ _ (fun he => h.1 he)]

theorem jsMapGet_foldSet_mem (arr : List (Nat × Chunk))
    (m : List (Nat × Chunk)) (k : Nat) (v : Chunk)
    (hnd : (arr.map Prod.fst).Nodup) (hmem : (k, v) ∈ arr) :
    jsMapGet (arr.foldl (fun m ic => jsMapSet m ic.1 ic.2) m) k = some v := by
  induction arr generalizing m with
  | nil => simp at hmem
  | cons ic rest ih =>
    simp only [List.map_cons, List.nodup_cons] at hnd
    rcases List.mem_cons.mp hmem with hic | hrest
    · subst hic
      rw [List.foldl_cons,
        jsMapGet_foldSet_not_mem rest _ k hnd.1, jsMapGet_set_self]
    · rw [List.foldl_cons, ih _ hnd.2 hrest]

theorem jsMapHas_foldSet (arr : List (Nat × Chunk)) (m : List (Nat × Chunk))
    (k : Nat) :
    jsMapHas (arr.foldl (fun m ic => jsMapSet m ic.1 ic.2) m) k =
      (decide (k ∈ arr.map Prod.fst) || jsMapHas m k) := by
  induction arr generalizing m with
  | nil => simp
  | cons ic rest ih =>
    rw [List.foldl_cons, ih, jsMapHas_set]
    by_cases h : k = ic.1 <;> by_cases h2 : k ∈ rest.map Prod.fst <;>
      simp [h, h2]

theorem jsMapSize_foldSet (arr : List (Nat × Chunk)) (m : List (Nat × Chunk))
    (hnd : (arr.map Prod.fst).Nodup)
    (hdis : ∀ k ∈ arr.map Prod.fst, jsMapHas m k = false) :
    jsMapSize (arr.foldl (fun m ic => jsMapSet m ic.1 ic.2) m) =
      jsMapSize m + arr.length := by
  induction arr generalizing m with
  | nil => rfl
  | cons ic rest ih =>
    simp only [List.map_cons, List.nodup_cons] at hnd
    rw [List.foldl_cons, ih _ hnd.2, jsMapSize_set,
      if_neg (by rw [hdis ic.1 (by simp)]; simp)]
    · simp [Nat.add_assoc, Nat.add_comm 1]
    · intro k hk
      rw [jsMapHas_set]
      have hne : ¬ (k = ic.1) := by
        intro he
        exact hnd.1 (he ▸ hk)
      simp [hne, hdis k (by simp [hk])]

theorem mapM_some_of_forall (l : List Nat) (g : Nat → Option Chunk)
    (f : Nat → Chunk) (h : ∀ a ∈ l, g a = some (f a)) :
    l.mapM g = some (l.map f) := by
  induction l with
  | nil => rfl
  | cons a rest ih =>
    rw [List.mapM_cons, h a (by simp), ih (fun b hb => h b (by simp [hb]))]
    rfl

theorem map_getD_range_eq (cs : List Chunk) :
    (List.range cs.length).map (fun i => cs.getD i []) = cs := by
  induction cs with
  | nil => rfl
  | cons c rest ih =>
    rw [List.length_cons, List.range_succ_eq_map, List.map_cons,
      List.map_map]
    have h2 : (fun i => (c :: rest).getD i []) ∘ Nat.succ =
        fun i => rest.getD i [] := by
      funext i
      simp [List.getD_cons_succ]
    rw [h2, ih]
    simp [List.getD_cons_zero]

/-- C8: a chunked upload whose chunks carry indices 0..expectedChunks-1 and
arrive in any order: once all have been stored the accumulator holds exactly
expectedChunks entries, the guard fires, the chunks are written in ascending
index order reproducing the source file byte-exactly, the accumulator is
destroyed, and the import step runs. -/
theorem c8_chunked_upload (cs : List Chunk) (p : List Nat)
    (hp : p.Perm (List.range cs.length)) :
    jsMapSize (storeChunks (p.map (fun i => (i, cs.getD i [])))) = cs.length ∧
    reassemble (storeChunks (p.map (fun i => (i, cs.getD i []))))
      cs.length = some cs.flatten ∧
    onChunkComplete (storeChunks (p.map (fun i => (i, cs.getD i []))))
      cs.length =
      some { fileBytes := some cs.flatten, accumulatorDestroyed := true,
             importStarted := true } := by
  have hkeys : (p.map (fun i => (i, cs.getD i []))).map Prod.fst = p := by
    rw [List.map_map]
    exact List.map_id p
  have hnd : ((p.map (fun i => (i, cs.getD i []))).map Prod.fst).Nodup := by
    rw [hkeys]
    exact hp.nodup_iff.mpr (List.nodup_range _)
  have hsize : jsMapSize (storeChunks (p.map (fun i => (i, cs.getD i [])))) =
      cs.length := by
    unfold storeChunks
    rw [jsMapSize_foldSet _ [] hnd (fun k _ => rfl)]
    simp [jsMapSize, hp.length_eq]
  have hget : ∀ i ∈ List.range cs.length,
      jsMapGet (storeChunks (p.map (fun i => (i, cs.getD i [])))) i =
        some (cs.getD i []) := by
    intro i hi
    unfold storeChunks
    refine jsMapGet_foldSet_mem _ _ _ _ hnd ?_
    have : i ∈ p := (hp.mem_iff).mpr hi
    exact List.mem_map_of_mem (fun i => (i, cs.getD i [])) this
  have hre : reassemble (storeChunks (p.map (fun i => (i, cs.getD i []))))
      cs.length = some cs.flatten := by
    unfold reassemble
    rw [mapM_some_of_forall _ _ (fun i => cs.getD i []) hget,
      map_getD_range_eq]
    rfl
  refine ⟨hsize, hre, ?_⟩
  unfold onChunkComplete
  rw [if_pos hsize, hre]

/-- Witness for `c8_chunked_upload`: a 3-chunk file arriving in order
2, 0, 1 reassembles byte-exactly and triggers the import. -/
theorem c8_chunked_upload_witness :
    onChunkComplete
      (storeChunks ([2, 0, 1].map
        (fun i => (i, ([[10, 11], [12], [13, 14]] : List Chunk).getD i []))))
      3 =
    some { fileBytes := some [10, 11, 12, 13, 14],
           accumulatorDestroyed := true, importStarted := true } :=
  (c8_chunked_upload [[10, 11], [12], [13, 14]] [2, 0, 1] (by decide)).2.2



/-- Case-insensitive character equality (the `i` regex flag). -/
def ciEq (a b : Char) : Bool := a.toLower = b.toLower

/-- Case-insensitive prefix match of a pattern against a character list. -/
def ciPrefix : List Char → List Char → Bool
  | [], _ => true
  | _ :: _, [] => false
  | p :: ps, c :: cs => ciEq c p && ciPrefix ps cs

/-- Fixed-string substring search. -/
def containsSub (pat : List Char) : List Char → Bool
  | [] => pat.isEmpty
  | c :: rest => pat.isPrefixOf (c :: rest) || containsSub pat rest

/-- Fuelled left-to-right global replace: at each position try `step`, which
returns the replacement text and the remaining input after the match; on no
match keep the character and advance (JS String.replace with a global
regex). -/
def replaceScanF (step : List Char → Option (List Char × List Char)) :
    Nat → List Char → List Char
  | 0, l => l
  | _ + 1, [] => []
  | n + 1, c :: rest =>
    match step (c :: rest) with
    | some (rep, remaining) => rep ++ replaceScanF step n remaining
    | none => c :: replaceScanF step n rest

/-- Global replace with fuel equal to the input length (every match consumes
at least one character, so the fuel is sufficient). -/
def replaceScan (step : List Char → Option (List Char × List Char))
    (l : List Char) : List Char :=
  replaceScanF step l.length l

/-- Global case-insensitive fixed-string replace. -/
def replaceCI (pat rep : List Char) (l : List Char) : List Char :=
  replaceScan (fun l2 =>
    if pat ≠ [] ∧ ciPrefix pat l2 then some (rep, l2.drop pat.length)
    else none) l

/-- One match of `/\[NVARCHAR\]\((\d+)\)/gi`: rewrite to `VARCHAR($1)`. -/
def stepBracketNVarchar (l : List Char) : Option (List Char × List Char) :=
  if ciPrefix "[NVARCHAR](".data l then
    let after := l.drop 11
    let digits := after.takeWhile Char.isDigit
    if digits ≠ [] ∧ ciPrefix ")".data (after.drop digits.length) then
      some ("VARCHAR(".data ++ digits ++ ")".data,
        (after.drop digits.length).drop 1)
    else none
  else none

/-- One match of `/NVARCHAR\((\d+)\)/gi`: rewrite to `VARCHAR($1)`. -/
def stepNVarchar (l : List Char) : Option (List Char × List Char) :=
  if ciPrefix "NVARCHAR(".data l then
    let after := l.drop 9
    let digits := after.takeWhile Char.isDigit
    if digits ≠ [] ∧ ciPrefix ")".data (after.drop digits.length) then
      some ("VARCHAR(".data ++ digits ++ ")".data,
        (after.drop digits.length).drop 1)
    else none
  else none

/-- Mandatory whitespace (`\s+`): consume it or fail. -/
def matchWs (l : List Char) : Option (List Char) :=
  let ws := l.takeWhile Char.isWhitespace
  if ws.isEmpty then none else some (l.drop ws.length)

/-- One match of `/BIGINT\s+IDENTITY\(1,1\)/gi`. -/
def stepBigintIdentity (l : List Char) : Option (List Char × List Char) :=
  if ciPrefix "BIGINT".data l then
    match matchWs (l.drop 6) with
    | some l2 =>
      if ciPrefix "IDENTITY(1,1)".data l2 then
        some ("BIGINT AUTO_INCREMENT".data, l2.drop 13)
      else none
    | none => none
  else none

/-- One match of `/INT\s+IDENTITY\(1,1\)/gi`. -/
def stepIntIdentity (l : List Char) : Option (List Char × List Char) :=
  if ciPrefix "INT".data l then
    match matchWs (l.drop 3) with
    | some l2 =>
      if ciPrefix "IDENTITY(1,1)".data l2 then
        some ("INT AUTO_INCREMENT".data, l2.drop 13)
      else none
    | none => none
  else none

/-- The data-type replace chain of `convertSqlServerDDLToMySQL` for
DDL_ALTER_TABLE (src/app.js 23-36), applied in source order. -/
def typeReplacements (l : List Char) : List Char :=
  let l := replaceCI "[dbo].".data [] l
  let l := replaceScan stepBracketNVarchar l
  let l := replaceCI "NVARCHAR(MAX)".data "TEXT".data l
  let l := replaceScan stepNVarchar l
  let l := replaceCI "NTEXT".data "TEXT".data l
  let l := replaceCI "BIT".data "BOOLEAN".data l
  let l := replaceCI "DATETIME2".data "DATETIME".data l
  let l := replaceCI "UNIQUEIDENTIFIER".data "VARCHAR(36)".data l
  let l := replaceScan stepBigintIdentity l
  let l := replaceScan stepIntIdentity l
  let l := replaceCI "GETDATE()".data "NOW()".data l
  replaceCI "NEWID()".data "UUID()".data l

/-- `(NULL|NOT NULL)` with the matched text captured (NULL tried first). -/
def matchNullKw (l : List Char) : Option (List Char × List Char) :=
  if ciPrefix "NULL".data l then some (l.take 4, l.drop 4)
  else if ciPrefix "NOT NULL".data l then some (l.take 8, l.drop 8)
  else none

/-- The shared prefix `Add\s+\[([^\]]+)\]\s+([A-Z]+)` of the four ADD COLUMN
patterns: returns the column capture, the type capture and the remainder. -/
def matchAddCore (l : List Char) :
    Option (List Char × List Char × List Char) :=
  if ciPrefix "Add".data l then
    match matchWs (l.drop 3) with
    | some l1 =>
      match l1 with
      | '[' :: l2 =>
        let col := l2.takeWhile (fun c => c ≠ ']')
        if col.isEmpty then none
        else
          match l2.drop col.length with
          | ']' :: l3 =>
            match matchWs l3 with
            | some l4 =>
              let typ := l4.takeWhile Char.isAlpha
              if typ.isEmpty then none
              else some (col, typ, l4.drop typ.length)
            | none => none
          | _ => none
      | _ => none
    | none => none
  else none

/-- `\((\d+)\)`: a parenthesised length capture. -/
def matchParenLen (l : List Char) : Option (List Char × List Char) :=
  match l with
  | '(' :: l1 =>
    let digits := l1.takeWhile Char.isDigit
    if digits ≠ [] ∧ ciPrefix ")".data (l1.drop digits.length) then
      some (digits, (l1.drop digits.length).drop 1)
    else none
  | _ => none

/-- The replacement text common to the four ADD COLUMN rewrites. -/
def addColReplacement (col typ extra tail : List Char) : List Char :=
  "ADD COLUMN `".data ++ col ++ "` ".data ++ typ ++ extra ++
    " CHARACTER SET utf8mb4 COLLATE utf8mb4_0900_ai_ci".data ++ tail

/-- Pattern 1: `Add\s+\[col\]\s+TYPE\((\d+)\)\s+(NULL|NOT NULL)`. -/
def stepAdd1 (l : List Char) : Option (List Char × List Char) :=
  match matchAddCore l with
  | some (col, typ, l1) =>
    match matchParenLen l1 with
    | some (digits, l2) =>
      match matchWs l2 with
      | some l3 =>
        match matchNullKw l3 with
        | some (kw, l4) =>
          some (addColReplacement col typ
            ("(".data ++ digits ++ ")".data) (" ".data ++ kw), l4)
        | none => none
      | none => none
    | none => none
  | none => none

/-- Pattern 2: `Add\s+\[col\]\s+TYPE\((\d+)\)`. -/
def stepAdd2 (l : List Char) : Option (List Char × List Char) :=
  match matchAddCore l with
  | some (col, typ, l1) =>
    match matchParenLen l1 with
    | some (digits, l2) =>
      some (addColReplacement col typ ("(".data ++ digits ++ ")".data) [], l2)
    | none => none
  | none => none

/-- Pattern 3: `Add\s+\[col\]\s+TYPE\s+(NULL|NOT NULL)`. -/
def stepAdd3 (l : List Char) : Option (List Char × List Char) :=
  match matchAddCore l with
  | some (col, typ, l1) =>
    match matchWs l1 with
    | some l2 =>
      match matchNullKw l2 with
      | some (kw, l3) =>
        some (addColReplacement col typ [] (" ".data ++ kw), l3)
      | none => none
    | none => none
  | none => none

/-- Pattern 4: `Add\s+\[col\]\s+TYPE`. -/
def stepAdd4 (l : List Char) : Option (List Char × List Char) :=
  match matchAddCore l with
  | some (col, typ, l1) =>
    some (addColReplacement col typ [] [], l1)
  | none => none

/-- `/DROP\s+\[([^\]]+)\]/gi` → ``DROP COLUMN `$1` ``. -/
def stepDropBracket (l : List Char) : Option (List Char × List Char) :=
  if ciPrefix "DROP".data l then
    match matchWs (l.drop 4) with
    | some l1 =>
      match l1 with
      | '[' :: l2 =>
        let col := l2.takeWhile (fun c => c ≠ ']')
        if col.isEmpty then none
        else
          match l2.drop col.length with
          | ']' :: l3 =>
            some ("DROP COLUMN `".data ++ col ++ "`".data, l3)
          | _ => none
      | _ => none
    | none => none
  else none

/-- `/DROP\s+COLUMN\s+([^\s]+)/gi` → ``DROP COLUMN `$1` ``. -/
def stepDropColumnWord (l : List Char) : Option (List Char × List Char) :=
  if ciPrefix "DROP".data l then
    match matchWs (l.drop 4) with
    | some l1 =>
      if ciPrefix "COLUMN".data l1 then
        match matchWs (l1.drop 6) with
        | some l2 =>
          let tok := l2.takeWhile (fun c => ¬ c.isWhitespace)
          if tok.isEmpty then none
          else some ("DROP COLUMN `".data ++ tok ++ "`".data,
            l2.drop tok.length)
        | none => none
      else none
    | none => none
  else none

/-- `/\[([^\]]+)\]/g` → backtick quoting. -/
def stepBracketToBacktick (l : List Char) : Option (List Char × List Char) :=
  match l with
  | '[' :: l1 =>
    let content := l1.takeWhile (fun c => c ≠ ']')
    if content.isEmpty then none
    else
      match l1.drop content.length with
      | ']' :: l2 => some ('`' :: content ++ ['`'], l2)
      | _ => none
  | _ => none

/-- `convertSqlServerDDLToMySQL(sqlCommand, tableName, operation)`
(src/app.js 13-113): the tableName parameter is unused in the source; a falsy
command gives null; DDL_ALTER_TABLE applies the type replacements and then the
first matching branch (ADD, DROP COLUMN, MODIFY/ALTER COLUMN,
LOCK_ESCALATION skip, or pass-through); DDL_DROP_TABLE and unknown operations
strip `[dbo].` and rewrite bracketed identifiers to backticks. -/
def convertSqlServerDDLToMySQL (sqlCommand : String) (operation : String) :
    Option String :=
  if sqlCommand = "" then none
  else
    let upperSql := trimChars (sqlCommand.data.map Char.toUpper)
    if operation = "DDL_ALTER_TABLE" then
      let mysqlDDL := typeReplacements sqlCommand.data
      if containsSub "ADD COLUMN".data upperSql ∨
          containsSub "ADD ".data upperSql then
        let r1 := replaceScan stepAdd1 mysqlDDL
        if r1 ≠ mysqlDDL then some (String.mk r1)
        else
          let r2 := replaceScan stepAdd2 mysqlDDL
          if r2 ≠ mysqlDDL then some (String.mk r2)
          else
            let r3 := replaceScan stepAdd3 mysqlDDL
            if r3 ≠ mysqlDDL then some (String.mk r3)
            else
              let r4 := replaceScan stepAdd4 mysqlDDL
              if r4 ≠ mysqlDDL then some (String.mk r4)
              else some (String.mk mysqlDDL)
      else if containsSub "DROP COLUMN".data upperSql then
        let l := replaceCI "dbo.".data [] mysqlDDL
        let l := replaceScan stepDropBracket l
        let l := replaceScan stepDropColumnWord l
        some (String.mk l)
      else if containsSub "MODIFY".data upperSql ∨
          containsSub "ALTER COLUMN".data upperSql then
        some (String.mk
          (replaceCI "ALTER COLUMN".data "MODIFY COLUMN".data mysqlDDL))
      else if containsSub "SET (LOCK_ESCALATION".data upperSql ∨
          containsSub "SET (LOCK ESCALATION".data upperSql then
        none
      else some (String.mk mysqlDDL)
    else if operation = "DDL_DROP_TABLE" then
      some (String.mk (replaceScan stepBracketToBacktick
        (replaceCI "[dbo].".data [] sqlCommand.data)))
    else
      some (String.mk (replaceScan stepBracketToBacktick
        (replaceCI "[dbo].".data [] sqlCommand.data)))

/-- C5: the DDL translator applied to the E4 command. The ADD COLUMN branch
rewrites the added column and its type, but never rewrites the remaining
bracketed identifiers: the executed statement keeps the SQL-Server-quoted
table name `[Sales]` (invalid MySQL) instead of the claimed backtick-quoted
`Sales`, so the execution of the translated DDL cannot succeed and the
session is sent ddl_sync_error rather than ddl_sync_success. -/
theorem c5_ddl_translation_keeps_brackets :
    convertSqlServerDDLToMySQL
      "ALTER TABLE [dbo].[Sales] Add [Note] [NVARCHAR](50) NULL"
      "DDL_ALTER_TABLE" =
      some "ALTER TABLE [Sales] ADD COLUMN `Note` VARCHAR(50) CHARACTER SET utf8mb4 COLLATE utf8mb4_0900_ai_ci NULL" ∧
    containsSub "[Sales]".data
      "ALTER TABLE [Sales] ADD COLUMN `Note` VARCHAR(50) CHARACTER SET utf8mb4 COLLATE utf8mb4_0900_ai_ci NULL".data
      = true ∧
    containsSub "`Sales`".data
      "ALTER TABLE [Sales] ADD COLUMN `Note` VARCHAR(50) CHARACTER SET utf8mb4 COLLATE utf8mb4_0900_ai_ci NULL".data
      = false := by
  refine ⟨by decide, by decide, by decide⟩



/-- JS String.prototype.trim on the values handled here. -/
def jsTrim (s : String) : String := String.mk (trimChars s.data)

/-- One match of the tag regex `<([^>]+)>([^<]*)<\/\1>` at the head of the
input: a nonempty tag up to the first `>`, a value up to the first `<`, and
the matching closing tag; returns the captures and the remaining input. -/
def tryTag (l : List Char) : Option (String × String × List Char) :=
  match l with
  | [] => none
  | c :: rest =>
    let tag := rest.takeWhile (fun x => x ≠ '>')
    if c = '<' ∧ tag ≠ [] ∧ ">".data.isPrefixOf (rest.drop tag.length) then
      let rest1 := (rest.drop tag.length).drop 1
      let value := rest1.takeWhile (fun x => x ≠ '<')
      let rest2 := rest1.drop value.length
      let closing := '<' :: '/' :: (tag ++ ['>'])
      if closing.isPrefixOf rest2 then
        some (String.mk tag, String.mk value, rest2.drop closing.length)
      else none
    else none

theorem tryTag_length_lt (l : List Char) (t v : String) (r : List Char)
    (h : tryTag l = some (t, v, r)) : r.length < l.length := by
  cases l with
  | nil => exact Option.noConfusion h
  | cons c rest =>
    rw [tryTag] at h
    simp only [] at h
    split_ifs at h with h1 h2 <;>
      first
        | exact Option.noConfusion h
        | (injection h with he
           injection he with he1 he2
           injection he2 with he2 he3
           have hpre := (List.isPrefixOf_iff_prefix.mp h2).length_le
           rw [← he3]
           simp only [List.length_drop, List.length_cons,
             List.length_append] at *
           omega)

/-- Fuel-indexed form of the exec loop over the tag regex
(src/app.js 500-541): collect a match and continue after it, or advance one
position. -/
def scanTagsF : Nat → List Char → List (String × String)
  | 0, _ => []
  | _ + 1, [] => []
  | fuel + 1, c :: rest =>
    match tryTag (c :: rest) with
    | some (t, v, r) => (t, v) :: scanTagsF fuel r
    | none => scanTagsF fuel rest

/-- The exec loop over the tag regex (src/app.js 500-541): each step either
consumes a whole match or advances one position, so the input length is
enough fuel. -/
def scanTags (l : List Char) : List (String × String) :=
  scanTagsF l.length l

theorem scanTagsF_fuel (n : Nat) : ∀ (m : Nat) (l : List Char),
    l.length ≤ n → l.length ≤ m → scanTagsF n l = scanTagsF m l := by
  induction n with
  | zero =>
    intro m l hn _
    have hl : l = [] := List.length_eq_zero.mp (Nat.le_zero.mp hn)
    subst hl
    cases m <;> rfl
  | succ n ih =>
    intro m l hn hm
    cases l with
    | nil => cases m <;> rfl
    | cons c rest =>
      cases m with
      | zero => exact absurd hm (by simp)
      | succ m =>
        rw [scanTagsF, scanTagsF]
        cases htt : tryTag (c :: rest) with
        | some tvr =>
          obtain ⟨t, v, r⟩ := tvr
          have hr := tryTag_length_lt _ t v r htt
          simp only [List.length_cons] at hn hm hr
          show (t, v) :: scanTagsF n r = (t, v) :: scanTagsF m r
          rw [ih m r (by omega) (by omega)]
        | none =>
          simp only [List.length_cons] at hn hm
          show scanTagsF n rest = scanTagsF m rest
          rw [ih m rest (by omega) (by omega)]

/-- JS object assignment for the string-valued XML result map. -/
def objSetS : List (String × String) → String → String → List (String × String)
  | [], k, v => [(k, v)]
  | kv :: rest, k, v =>
    if kv.1 = k then (k, v) :: rest else kv :: objSetS rest k v

/-- JS property access on the XML result map. -/
def objGetS (m : List (String × String)) (k : String) : Option String :=
  (m.find? (fun kv => kv.1 = k)).map (fun kv => kv.2)

/-- The collection loop body (src/app.js 503-510 and 520-527): for each tag
match, trim the value and store it under the (possibly old_-prefixed) tag
name when the trimmed value is nonempty. -/
def addTagEntries (start : List (String × String)) (pre : String)
    (tags : List (String × String)) : List (String × String) :=
  tags.foldl (fun acc tv =>
    if jsTrim tv.2 ≠ "" then objSetS acc (pre ++ tv.1) (jsTrim tv.2)
    else acc) start

/-- First index at which the fixed pattern occurs. -/
def findSub (pat : List Char) : List Char → Option Nat
  | [] => if pat.isEmpty then some 0 else none
  | c :: rest =>
    if pat.isPrefixOf (c :: rest) then some 0
    else (findSub pat rest).map (fun n => n + 1)

/-- The non-greedy extraction `/<open>(.*?)<\/close>/s`: the text between the
first occurrence of the opening tag and the first following closing tag. -/
def extractBetween (openTag closeTag l : List Char) : Option (List Char) :=
  match findSub openTag l with
  | none => none
  | some i =>
    let after := l.drop (i + openTag.length)
    match findSub closeTag after with
    | none => none
    | some j => some (after.take j)

/-- Core of `parseXMLToObject` (src/app.js 489-551) on the character
sequence: with both `<new>` and `<old>` present, flatten the tag pairs
inside each envelope, prefixing `old_` under `<old>` (the `<old>` entries
are added on top of the `<new>` ones); otherwise flatten the top-level tag
pairs. Only pairs whose trimmed value is nonempty produce entries, and the
stored value is the trimmed one. -/
def parseXMLChars (l : List Char) : List (String × String) :=
  if containsSub "<new>".data l ∧ containsSub "<old>".data l then
    match extractBetween "<old>".data "</old>".data l with
    | some inner2 =>
      addTagEntries
        (match extractBetween "<new>".data "</new>".data l with
         | some inner => addTagEntries [] "" (scanTags inner)
         | none => []) "old_" (scanTags inner2)
    | none =>
      (match extractBetween "<new>".data "</new>".data l with
       | some inner => addTagEntries [] "" (scanTags inner)
       | none => [])
  else addTagEntries [] "" (scanTags l)

/-- `parseXMLToObject` (src/app.js 489-551). -/
def parseXMLToObject (xmlString : String) : List (String × String) :=
  parseXMLChars xmlString.data

/-- One `<tag>value</tag>` pair of the minimal wire grammar, as the character
sequence it puts on the wire. -/
def renderPair (p : String × String) : List Char :=
  '<' :: (p.1.data ++ ('>' :: (p.2.data ++
    ('<' :: ('/' :: (p.1.data ++ ['>']))))))

/-- A sequence of pairs of the minimal wire grammar. -/
def renderPairs : List (String × String) → List Char
  | [] => []
  | p :: rest => renderPair p ++ renderPairs rest

/-- The `<new>…</new><old>…</old>` envelope of the minimal wire grammar. -/
def renderNewOld (n o : List (String × String)) : List Char :=
  "<new>".data ++ (renderPairs n ++ ("</new>".data ++
    ("<old>".data ++ (renderPairs o ++ "</old>".data))))

/-- A pair is well-formed for the minimal grammar when the tag is nonempty
and free of the `>` delimiter and the value is free of `<`. -/
def goodPair (p : String × String) : Prop :=
  p.1.data ≠ [] ∧ (∀ c ∈ p.1.data, c ≠ '>') ∧ (∀ c ∈ p.2.data, c ≠ '<')

instance (p : String × String) : Decidable (goodPair p) := by
  unfold goodPair
  infer_instance


theorem takeWhile_append_stop (p : Char → Bool) (xs : List Char) (y : Char)
    (ys : List Char) (hxs : ∀ x ∈ xs, p x = true) (hy : p y = false) :
    (xs ++ y :: ys).takeWhile p = xs := by
  induction xs with
  | nil => simp [List.takeWhile_cons, hy]
  | cons x rest ih =>
    rw [List.cons_append, List.takeWhile_cons, hxs x (by simp)]
    simp only [if_true]
    rw [ih (fun a ha => hxs a (by simp [ha]))]

theorem tryTag_render (t v : String) (rest : List Char)
    (ht1 : t.data ≠ []) (ht2 : ∀ c ∈ t.data, c ≠ '>')
    (hv : ∀ c ∈ v.data, c ≠ '<') :
    tryTag (renderPair (t, v) ++ rest) = some (t, v, rest) := by
  have hd : renderPair (t, v) ++ rest =
      '<' :: (t.data ++ ('>' :: (v.data ++
        ('<' :: ('/' :: (t.data ++ ('>' :: rest))))))) := by
    simp [renderPair]
  rw [hd, tryTag]
  have htake : (t.data ++ ('>' :: (v.data ++
      ('<' :: ('/' :: (t.data ++ ('>' :: rest))))))).takeWhile
      (fun x => decide (x ≠ '>')) = t.data := by
    refine takeWhile_append_stop _ _ _ _ (fun x hx => ?_) (by simp)
    simp [ht2 x hx]
  simp only [htake, List.drop_left]
  rw [if_pos ⟨by simp, ht1, by simp [List.isPrefixOf]⟩]
  have htake2 : (v.data ++
      ('<' :: ('/' :: (t.data ++ ('>' :: rest))))).takeWhile
      (fun x => decide (x ≠ '<')) = v.data := by
    refine takeWhile_append_stop _ _ _ _ (fun x hx => ?_) (by simp)
    simp [hv x hx]
  simp only [List.drop_one, List.tail_cons, htake2, List.drop_left]
  have hclose : ('<' :: ('/' :: (t.data ++ ('>' :: rest)))) =
      ('<' :: '/' :: (t.data ++ ['>'])) ++ rest := by
    simp
  rw [hclose]
  rw [if_pos (List.isPrefixOf_iff_prefix.mpr (List.prefix_append _ _))]
  rw [List.drop_left]

theorem scanTags_cons_of_tryTag (l : List Char) (t v : String) (r : List Char)
    (h : tryTag l = some (t, v, r)) :
    scanTags l = (t, v) :: scanTags r := by
  cases l with
  | nil => exact Option.noConfusion h
  | cons c rest =>
    have hr := tryTag_length_lt _ t v r h
    simp only [List.length_cons] at hr
    show scanTagsF (c :: rest).length (c :: rest) = _
    simp only [List.length_cons]
    rw [scanTagsF, h]
    show (t, v) :: scanTagsF rest.length r = (t, v) :: scanTags r
    rw [scanTagsF_fuel rest.length r.length r (by omega) (le_refl _)]
    rfl

theorem scanTags_renderPairs (pairs : List (String × String))
    (hg : ∀ p ∈ pairs, goodPair p) :
    scanTags (renderPairs pairs) = pairs := by
  induction pairs with
  | nil => rfl
  | cons p rest ih =>
    obtain ⟨t, v⟩ := p
    obtain ⟨h1, h2, h3⟩ := hg (t, v) (by simp)
    rw [renderPairs,
      scanTags_cons_of_tryTag _ t v _ (tryTag_render t v _ h1 h2 h3),
      ih (fun q hq => hg q (by simp [hq]))]

theorem empty_append_str (s : String) : "" ++ s = s := by
  cases s
  rfl

theorem objGetS_nil (k : String) : objGetS [] k = none := rfl

theorem objGetS_set_self (m : List (String × String)) (k v : String) :
    objGetS (objSetS m k v) k = some v := by
  induction m with
  | nil =>
    simp [objSetS, objGetS, List.find?]
  | cons kv rest ih =>
    rw [objSetS]
    by_cases h : kv.1 = k
    · rw [if_pos h]
      simp only [objGetS]
      rw [List.find?_cons_of_pos _ (by simp)]
      rfl
    · rw [if_neg h]
      simp only [objGetS] at ih ⊢
      rw [List.find?_cons_of_neg _ (by simp [h])]
      exact ih

theorem objGetS_set_other (m : List (String × String)) (k k2 v : String)
    (h : k2 ≠ k) : objGetS (objSetS m k v) k2 = objGetS m k2 := by
  induction m with
  | nil =>
    simp [objSetS, objGetS, List.find?, Ne.symm h]
  | cons kv rest ih =>
    rw [objSetS]
    by_cases hk : kv.1 = k
    · rw [if_pos hk]
      simp only [objGetS]
      rw [List.find?_cons_of_neg _ (by simp [Ne.symm h]),
        List.find?_cons_of_neg _ (by simp [hk, Ne.symm h])]
    · rw [if_neg hk]
      by_cases h2 : kv.1 = k2
      · simp only [objGetS]
        rw [List.find?_cons_of_pos _ (by simp [h2]),
          List.find?_cons_of_pos _ (by simp [h2])]
      · simp only [objGetS] at ih ⊢
        rw [List.find?_cons_of_neg _ (by simp [h2]),
          List.find?_cons_of_neg _ (by simp [h2])]
        exact ih

theorem addTagEntries_cons (start : List (String × String)) (pre : String)
    (q : String × String) (rest : List (String × String)) :
    addTagEntries start pre (q :: rest) =
      addTagEntries
        (if jsTrim q.2 ≠ "" then objSetS start (pre ++ q.1) (jsTrim q.2)
         else start) pre rest := rfl

theorem objGetS_addTagEntries_not_mem (tags : List (String × String))
    (start : List (String × String)) (pre k : String)
    (h : k ∉ tags.map (fun p => pre ++ p.1)) :
    objGetS (addTagEntries start pre tags) k = objGetS start k := by
  induction tags generalizing start with
  | nil => rfl
  | cons q rest ih =>
    rw [addTagEntries_cons]
    have hk1 : k ≠ pre ++ q.1 := by
      intro he
      exact h (by simp [he])
    have hrest : k ∉ rest.map (fun p => pre ++ p.1) := by
      intro hm
      exact h (by simp [hm])
    rw [ih _ hrest]
    by_cases hq : jsTrim q.2 ≠ ""
    · rw [if_pos hq, objGetS_set_other _ _ _ _ hk1]
    · rw [if_neg hq]

theorem objGetS_addTagEntries_mem (tags : List (String × String))
    (start : List (String × String)) (pre t v : String)
    (hnd : (tags.map (fun p => pre ++ p.1)).Nodup)
    (hmem : (t, v) ∈ tags) :
    objGetS (addTagEntries start pre tags) (pre ++ t) =
      if jsTrim v = "" then objGetS start (pre ++ t) else some (jsTrim v) := by
  revert hnd hmem
  induction tags generalizing start with
  | nil =>
    intro _ hmem
    exact absurd hmem (by simp)
  | cons q rest ih =>
    intro hnd hmem
    rw [addTagEntries_cons]
    simp only [List.map_cons, List.nodup_cons] at hnd
    rcases List.mem_cons.mp hmem with hq | hrest
    · obtain ⟨hq1, hq2⟩ : q.1 = t ∧ q.2 = v := by
        rw [← hq]
        exact ⟨rfl, rfl⟩
      rw [hq1] at hnd
      rw [hq1, hq2]
      rw [objGetS_addTagEntries_not_mem _ _ _ _ hnd.1]
      by_cases hb : jsTrim v = ""
      · rw [if_pos hb, if_neg (by simp [hb])]
      · rw [if_neg hb, if_pos hb, objGetS_set_self]
    · have hqt : (pre ++ t) ≠ (pre ++ q.1) := by
        intro he
        exact hnd.1 (he ▸ List.mem_map.mpr ⟨(t, v), hrest, rfl⟩)
      rw [ih _ hnd.2 hrest]
      by_cases hbq : jsTrim q.2 ≠ ""
      · rw [if_pos hbq, objGetS_set_other _ _ _ _ hqt]
      · rw [if_neg hbq]

theorem findSub_of_prefix (pat l : List Char) (hl : l ≠ [])
    (h : pat.isPrefixOf l = true) : findSub pat l = some 0 := by
  cases l with
  | nil => exact absurd rfl hl
  | cons c rest => rw [findSub, if_pos h]

theorem findSub_append_of_no_early (pat xs rest : List Char)
    (hno : ∀ i, i < xs.length → pat.isPrefixOf ((xs ++ rest).drop i) = false) :
    findSub pat (xs ++ rest) =
      (findSub pat rest).map (fun n => n + xs.length) := by
  induction xs with
  | nil =>
    simp only [List.nil_append, List.length_nil]
    cases findSub pat rest <;> simp
  | cons x xs ih =>
    rw [List.cons_append, findSub]
    have h0 := hno 0 (by simp)
    simp only [List.cons_append, List.drop_zero] at h0
    rw [if_neg (by simp [h0])]
    have hno2 : ∀ i, i < xs.length →
        pat.isPrefixOf ((xs ++ rest).drop i) = false := by
      intro i hi
      have := hno (i + 1) (by simp only [List.length_cons]; omega)
      simpa [List.cons_append] using this
    rw [ih hno2]
    cases findSub pat rest <;>
      simp [List.length_cons, Nat.add_assoc]

theorem extractBetween_eq (openTag closeTag l : List Char) (i j : Nat)
    (hi : findSub openTag l = some i)
    (hj : findSub closeTag (l.drop (i + openTag.length)) = some j) :
    extractBetween openTag closeTag l =
      some ((l.drop (i + openTag.length)).take j) := by
  rw [extractBetween, hi]
  show (match findSub closeTag (l.drop (i + openTag.length)) with
    | none => none
    | some j => some ((l.drop (i + openTag.length)).take j)) = _
  rw [hj]

theorem containsSub_of_prefix (pat l : List Char) (hl : l ≠ [])
    (h : pat.isPrefixOf l = true) : containsSub pat l = true := by
  cases l with
  | nil => exact absurd rfl hl
  | cons c rest =>
    rw [containsSub]
    simp [h]

theorem containsSub_append_right (pat xs ys : List Char)
    (h : containsSub pat ys = true) : containsSub pat (xs ++ ys) = true := by
  induction xs with
  | nil => simpa
  | cons x xs ih =>
    rw [List.cons_append, containsSub]
    simp [ih]

theorem parseXML_flat (pairs : List (String × String)) (t v : String)
    (hg : ∀ p ∈ pairs, goodPair p)
    (hnd : (pairs.map Prod.fst).Nodup)
    (hmem : (t, v) ∈ pairs)
    (hno : ¬(containsSub "<new>".data (renderPairs pairs) = true ∧
      containsSub "<old>".data (renderPairs pairs) = true)) :
    objGetS (parseXMLChars (renderPairs pairs)) t =
      if jsTrim v = "" then none else some (jsTrim v) := by
  rw [parseXMLChars, if_neg hno, scanTags_renderPairs pairs hg]
  have hnd2 : (pairs.map (fun p => "" ++ p.1)).Nodup := by
    have he : pairs.map (fun p => "" ++ p.1) = pairs.map Prod.fst :=
      List.map_congr_left (fun p _ => empty_append_str p.1)
    rw [he]
    exact hnd
  rw [← empty_append_str t,
    objGetS_addTagEntries_mem pairs [] "" t v hnd2 hmem]
  by_cases hb : jsTrim v = ""
  · rw [if_pos hb, if_pos hb, objGetS_nil]
  · rw [if_neg hb, if_neg hb]

theorem parseXML_newold_parse (n o : List (String × String))
    (hgn : ∀ p ∈ n, goodPair p) (hgo : ∀ p ∈ o, goodPair p)
    (H1 : ∀ i, i < (renderPairs n).length →
      "</new>".data.isPrefixOf ((renderPairs n ++ ("</new>".data ++
        ("<old>".data ++ (renderPairs o ++ "</old>".data)))).drop i) = false)
    (H2 : ∀ i, i < ("<new>".data ++ (renderPairs n ++ "</new>".data)).length →
      "<old>".data.isPrefixOf ((renderNewOld n o).drop i) = false)
    (H3 : ∀ i, i < (renderPairs o).length →
      "</old>".data.isPrefixOf
        ((renderPairs o ++ "</old>".data).drop i) = false) :
    parseXMLChars (renderNewOld n o) =
      addTagEntries (addTagEntries [] "" n) "old_" o := by
  have hcnew : containsSub "<new>".data (renderNewOld n o) = true := by
    refine containsSub_of_prefix _ _ (List.cons_ne_nil _ _) ?_
    exact List.isPrefixOf_iff_prefix.mpr (List.prefix_append _ _)
  have hsplit : renderNewOld n o =
      ("<new>".data ++ (renderPairs n ++ "</new>".data)) ++
      ("<old>".data ++ (renderPairs o ++ "</old>".data)) := by
    simp [renderNewOld]
  have hcold : containsSub "<old>".data (renderNewOld n o) = true := by
    rw [hsplit]
    refine containsSub_append_right _ _ _ ?_
    refine containsSub_of_prefix _ _ (List.cons_ne_nil _ _) ?_
    exact List.isPrefixOf_iff_prefix.mpr (List.prefix_append _ _)
  have hfn : findSub "<new>".data (renderNewOld n o) = some 0 := by
    refine findSub_of_prefix _ _ (List.cons_ne_nil _ _) ?_
    exact List.isPrefixOf_iff_prefix.mpr (List.prefix_append _ _)
  have hdropn : (renderNewOld n o).drop (0 + "<new>".data.length) =
      renderPairs n ++ ("</new>".data ++
        ("<old>".data ++ (renderPairs o ++ "</old>".data))) := by
    rw [Nat.zero_add]
    show ("<new>".data ++ (renderPairs n ++ ("</new>".data ++
      ("<old>".data ++ (renderPairs o ++ "</old>".data))))).drop
        "<new>".data.length = _
    exact List.drop_left _ _
  have hfcn : findSub "</new>".data ((renderNewOld n o).drop
      (0 + "<new>".data.length)) = some (0 + (renderPairs n).length) := by
    rw [hdropn, findSub_append_of_no_early _ _ _ H1]
    have hp1 : findSub "</new>".data ("</new>".data ++
        ("<old>".data ++ (renderPairs o ++ "</old>".data))) = some 0 := by
      refine findSub_of_prefix _ _ (List.cons_ne_nil _ _) ?_
      exact List.isPrefixOf_iff_prefix.mpr (List.prefix_append _ _)
    rw [hp1]
    rfl
  have hexn : extractBetween "<new>".data "</new>".data (renderNewOld n o) =
      some (renderPairs n) := by
    rw [extractBetween_eq _ _ _ _ _ hfn hfcn, hdropn, Nat.zero_add,
      List.take_left]
  have H2x : ∀ i,
      i < ("<new>".data ++ (renderPairs n ++ "</new>".data)).length →
      "<old>".data.isPrefixOf
        (((("<new>".data ++ (renderPairs n ++ "</new>".data)) ++
          ("<old>".data ++ (renderPairs o ++ "</old>".data)))).drop i) =
        false := by
    intro i hi
    have hh := H2 i hi
    rwa [hsplit] at hh
  have hfo : findSub "<old>".data (renderNewOld n o) =
      some (0 + ("<new>".data ++ (renderPairs n ++ "</new>".data)).length) := by
    rw [hsplit, findSub_append_of_no_early _ _ _ H2x]
    have hp2 : findSub "<old>".data ("<old>".data ++
        (renderPairs o ++ "</old>".data)) = some 0 := by
      refine findSub_of_prefix _ _ (List.cons_ne_nil _ _) ?_
      exact List.isPrefixOf_iff_prefix.mpr (List.prefix_append _ _)
    rw [hp2]
    rfl
  have hdropo : (renderNewOld n o).drop
      ((0 + ("<new>".data ++ (renderPairs n ++ "</new>".data)).length) +
        "<old>".data.length) = renderPairs o ++ "</old>".data := by
    rw [hsplit, Nat.zero_add, ← List.drop_drop, List.drop_left]
    exact List.drop_left _ _
  have hfco : findSub "</old>".data ((renderNewOld n o).drop
      ((0 + ("<new>".data ++ (renderPairs n ++ "</new>".data)).length) +
        "<old>".data.length)) = some (0 + (renderPairs o).length) := by
    rw [hdropo, findSub_append_of_no_early _ _ _ H3,
      (show findSub "</old>".data "</old>".data = some 0 from by decide)]
    rfl
  have hexo : extractBetween "<old>".data "</old>".data (renderNewOld n o) =
      some (renderPairs o) := by
    rw [extractBetween_eq _ _ _ _ _ hfo hfco, hdropo, Nat.zero_add,
      List.take_left]
  rw [parseXMLChars, if_pos ⟨hcnew, hcold⟩, hexn, hexo]
  show addTagEntries (addTagEntries [] "" (scanTags (renderPairs n))) "old_"
    (scanTags (renderPairs o)) = _
  rw [scanTags_renderPairs n hgn, scanTags_renderPairs o hgo]

/-- C10 (corrected): decoding an XML recordData in the minimal wire grammar
flattens the `<tag>value</tag>` pairs into a map, but each stored value is
the JS-trimmed value and a pair whose trimmed value is blank produces no
entry at all; when `<new>…</new>` and `<old>…</old>` both appear, every
pair under `<new>` becomes `key → trimmed value` and every pair under
`<old>` becomes `old_key → trimmed value`, under the same
trimming/blank-dropping rule. -/
theorem c10_xml_flatten :
    (∀ (pairs : List (String × String)) (t v : String),
      (∀ p ∈ pairs, goodPair p) →
      (pairs.map Prod.fst).Nodup →
      (t, v) ∈ pairs →
      ¬(containsSub "<new>".data (renderPairs pairs) = true ∧
        containsSub "<old>".data (renderPairs pairs) = true) →
      objGetS (parseXMLToObject (String.mk (renderPairs pairs))) t =
        if jsTrim v = "" then none else some (jsTrim v)) ∧
    (∀ (n o : List (String × String)) (t v : String),
      (∀ p ∈ n, goodPair p) → (∀ p ∈ o, goodPair p) →
      (n.map Prod.fst).Nodup → (o.map Prod.fst).Nodup →
      (∀ p ∈ n, ∀ q ∈ o, p.1 ≠ "old_" ++ q.1) →
      (∀ i, i < (renderPairs n).length →
        "</new>".data.isPrefixOf ((renderPairs n ++ ("</new>".data ++
          ("<old>".data ++ (renderPairs o ++ "</old>".data)))).drop i) =
          false) →
      (∀ i, i < ("<new>".data ++ (renderPairs n ++ "</new>".data)).length →
        "<old>".data.isPrefixOf ((renderNewOld n o).drop i) = false) →
      (∀ i, i < (renderPairs o).length →
        "</old>".data.isPrefixOf
          ((renderPairs o ++ "</old>".data).drop i) = false) →
      ((t, v) ∈ n →
        objGetS (parseXMLToObject (String.mk (renderNewOld n o))) t =
          if jsTrim v = "" then none else some (jsTrim v)) ∧
      ((t, v) ∈ o →
        objGetS (parseXMLToObject (String.mk (renderNewOld n o)))
          ("old_" ++ t) =
          if jsTrim v = "" then none else some (jsTrim v))) := by
  constructor
  · intro pairs t v hg hnd hmem hno
    exact parseXML_flat pairs t v hg hnd hmem hno
  · intro n o t v hgn hgo hndn hndo hcol H1 H2 H3
    have hwrap : parseXMLToObject (String.mk (renderNewOld n o)) =
        parseXMLChars (renderNewOld n o) := rfl
    have hparse := parseXML_newold_parse n o hgn hgo H1 H2 H3
    have hndn2 : (n.map (fun p => "" ++ p.1)).Nodup := by
      have he : n.map (fun p => "" ++ p.1) = n.map Prod.fst :=
        List.map_congr_left (fun p _ => empty_append_str p.1)
      rw [he]
      exact hndn
    have hinj : Function.Injective (fun s : String => "old_" ++ s) := by
      intro a b hab
      have hd : ("old_" ++ a).data = ("old_" ++ b).data :=
        congrArg String.data hab
      rw [String.data_append, String.data_append] at hd
      exact String.ext (List.append_cancel_left hd)
    have hndo2 : (o.map (fun p => "old_" ++ p.1)).Nodup := by
      have he : o.map (fun p => "old_" ++ p.1) =
          (o.map Prod.fst).map (fun s => "old_" ++ s) := by
        rw [List.map_map]
        rfl
      rw [he]
      exact hndo.map hinj
    constructor
    · intro hmem
      rw [hwrap, hparse]
      have hnotin : t ∉ o.map (fun p => "old_" ++ p.1) := by
        intro hm
        obtain ⟨q, hq, hqe⟩ := List.mem_map.mp hm
        exact hcol (t, v) hmem q hq hqe.symm
      rw [objGetS_addTagEntries_not_mem _ _ _ _ hnotin,
        ← empty_append_str t,
        objGetS_addTagEntries_mem n [] "" t v hndn2 hmem]
      by_cases hb : jsTrim v = ""
      · rw [if_pos hb, if_pos hb, objGetS_nil]
      · rw [if_neg hb, if_neg hb]
    · intro hmem
      rw [hwrap, hparse,
        objGetS_addTagEntries_mem o (addTagEntries [] "" n) "old_" t v
          hndo2 hmem]
      have hnotin2 : ("old_" ++ t) ∉ n.map (fun p => "" ++ p.1) := by
        intro hm
        obtain ⟨p, hp, hpe⟩ := List.mem_map.mp hm
        rw [empty_append_str p.1] at hpe
        exact hcol p hp (t, v) hmem hpe
      rw [objGetS_addTagEntries_not_mem _ _ _ _ hnotin2]
      by_cases hb : jsTrim v = ""
      · rw [if_pos hb, if_pos hb, objGetS_nil]
      · rw [if_neg hb, if_neg hb]

/-- C10 witness: the flat decoding of `<InvoiceNo> 7 </InvoiceNo>` binds
InvoiceNo to the trimmed "7", and the E3-style envelope
`<new><ItemCode>M1</ItemCode><Description1>Latte</Description1></new>`
`<old><ItemCode>M1</ItemCode></old>` binds ItemCode, Description1 and
old_ItemCode. -/
theorem c10_xml_flatten_witness :
    objGetS (parseXMLToObject (String.mk (renderPairs [("InvoiceNo", " 7 ")])))
      "InvoiceNo" = some "7" ∧
    objGetS (parseXMLToObject (String.mk (renderNewOld
      [("ItemCode", "M1"), ("Description1", "Latte")] [("ItemCode", "M1")])))
      "ItemCode" = some "M1" ∧
    objGetS (parseXMLToObject (String.mk (renderNewOld
      [("ItemCode", "M1"), ("Description1", "Latte")] [("ItemCode", "M1")])))
      "old_ItemCode" = some "M1" := by
  refine ⟨?_, ?_, ?_⟩
  · have h := c10_xml_flatten.1 [("InvoiceNo", " 7 ")] "InvoiceNo" " 7 "
      (by decide) (by decide) (by decide) (by decide)
    rw [h]
    decide
  · have h := (c10_xml_flatten.2
      [("ItemCode", "M1"), ("Description1", "Latte")] [("ItemCode", "M1")]
      "ItemCode" "M1" (by decide) (by decide) (by decide) (by decide)
      (by decide) (by decide) (by decide) (by decide)).1 (by decide)
    rw [h]
    decide
  · have h := (c10_xml_flatten.2
      [("ItemCode", "M1"), ("Description1", "Latte")] [("ItemCode", "M1")]
      "ItemCode" "M1" (by decide) (by decide) (by decide) (by decide)
      (by decide) (by decide) (by decide) (by decide)).2 (by decide)
    have he : ("old_ItemCode" : String) = "old_" ++ "ItemCode" := rfl
    rw [he, h]
    decide

/-- C10 counterexample to the claim as stated: the pair `<A></A>` has a
blank value, and its decoding produces no entry at all (the claimed
`A → ""` entry is absent); moreover `<B> x </B>` decodes to the trimmed
value `"x"`, not the literal value `" x "`. -/
theorem c10_xml_flatten_counterexample :
    parseXMLToObject "<A></A>" = [] ∧
    objGetS (parseXMLToObject "<A></A>") "A" = none ∧
    parseXMLToObject "<B> x </B>" = [("B", "x")] ∧
    objGetS (parseXMLToObject "<B> x </B>") "B" ≠ some " x " := by
  refine ⟨by decide, by decide, by decide, by decide⟩

end AdvReport
